import Mathlib

/-!
Verification of the Evolution-Sim 2.0 ecosystem simulator core.

This file shallowly embeds the Rust source of the simulator (genome/trait
expression, the behavior decision procedure, sensory collection, the world
resource grid with regeneration/decay/diffusion, climate events, the
lifecycle energy systems, and the speciation centroid update) as Lean
definitions over the real numbers, and proves or refutes the specified
properties about them.  Machine floats are idealized as real numbers; the
sources of uniform randomness are passed in explicitly as data.
-/

set_option maxHeartbeats 1000000

namespace EvoSim

/-- Rust `f32::clamp(lo, hi)` (defined for `lo ≤ hi`). -/
def clampf (x lo hi : ℝ) : ℝ := min (max x lo) hi

lemma clampf_le (x lo hi : ℝ) : clampf x lo hi ≤ hi := min_le_right _ _

lemma le_clampf (x lo hi : ℝ) (h : lo ≤ hi) : lo ≤ clampf x lo hi :=
  le_min (le_max_right _ _) h

lemma clampf_nonneg (x hi : ℝ) (h : 0 ≤ hi) : 0 ≤ clampf x 0 hi :=
  le_clampf x 0 hi h

/-- 2-D vector (glam `Vec2`). -/
def Vec2 : Type := ℝ × ℝ

/-- Componentwise subtraction of 2-D vectors. -/
def vsub (a b : Vec2) : Vec2 := (a.1 - b.1, a.2 - b.2)

/-- glam `Vec2::length`. -/
noncomputable def vlen (v : Vec2) : ℝ := Real.sqrt (v.1 ^ 2 + v.2 ^ 2)

/-- glam `Vec2::distance`. -/
noncomputable def vdist (a b : Vec2) : ℝ := vlen (vsub a b)

lemma vlen_nonneg (v : Vec2) : 0 ≤ vlen v := Real.sqrt_nonneg _

/-- `Vec2::length` of an axis-aligned vector `(x, 0)` is `|x|`. -/
lemma vlen_axis (x : ℝ) : vlen (x, 0) = |x| := by
  simp only [vlen]
  rw [show x ^ 2 + (0 : ℝ) ^ 2 = x ^ 2 by ring, Real.sqrt_sq_eq_abs]

/-! ## GenomeEngine (`src/organisms/genetics.rs`) -/

/-- `GENOME_SIZE`: number of genes in a genome. -/
def GENOME_SIZE : ℕ := 32

/-- A genome: the `genes` vector of f32 values (source stores a SmallVec). -/
def Genome : Type := List ℝ

/-- `Genome::new`: take at most `GENOME_SIZE` genes, clamping each to [0,1],
then pad with 0.5 up to `GENOME_SIZE`. -/
def Genome.new (genes : List ℝ) : Genome :=
  let g := (genes.take GENOME_SIZE).map (fun x => clampf x 0 1)
  g ++ List.replicate (GENOME_SIZE - g.length) 0.5

/-- `Genome::get_gene`: the gene at `index` clamped to [0,1], defaulting
to 0.5 out of range. -/
def Genome.get_gene (g : Genome) (index : ℕ) : ℝ :=
  if h : index < g.length then clampf (g.get ⟨index, h⟩) 0 1 else 0.5

/-- `gene_to_signed`: map a [0,1] gene value into [-1,1]. -/
def gene_to_signed (value : ℝ) : ℝ := (value * 2) - 1

/-- `sigmoid`: logistic activation. -/
noncomputable def sigmoid (x : ℝ) : ℝ := 1 / (1 + Real.exp (-x))

/-- `express_with_weights`: weighted gene sum plus bias, clamped to [-6,6],
squashed by the sigmoid, remapped into [min,max]. -/
noncomputable def express_with_weights (genome : Genome) (weights : List (ℕ × ℝ))
    (bias mn mx : ℝ) : ℝ :=
  let sum := weights.foldl
    (fun s iw => s + gene_to_signed (genome.get_gene iw.1) * iw.2) bias
  let normalized := sigmoid (clampf sum (-6) 6)
  mn + normalized * (mx - mn)

/-- Base trait gene indices (primary drivers). -/
def SPEED : ℕ := 0
def SIZE : ℕ := 1
def METABOLISM_RATE : ℕ := 2
def MOVEMENT_COST : ℕ := 3
def MAX_ENERGY : ℕ := 4
def REPRODUCTION_COOLDOWN : ℕ := 5
def REPRODUCTION_THRESHOLD : ℕ := 6
def SENSORY_RANGE : ℕ := 7
def AGGRESSION : ℕ := 8
def BOLDNESS : ℕ := 9

/-- Modifier gene indices. -/
def SPEED_FAST_TWITCH : ℕ := 10
def SPEED_ENDURANCE : ℕ := 11
def STRUCTURAL_DENSITY : ℕ := 12
def METABOLIC_FLEXIBILITY : ℕ := 13
def REPRODUCTIVE_INVESTMENT : ℕ := 14
def SENSORY_FOCUS : ℕ := 15
def SOCIAL_SENSITIVITY : ℕ := 16
def THERMAL_TOLERANCE : ℕ := 17
def MUTATION_CONTROL : ℕ := 18
def DEVELOPMENTAL_PLASTICITY : ℕ := 19
def FORAGING_BIAS : ℕ := 20
def RISK_TOLERANCE : ℕ := 21
def EXPLORATION_DRIVE : ℕ := 22
def CLUTCH_SIZE : ℕ := 23
def OFFSPRING_ENERGY_SHARE : ℕ := 24
def HUNGER_MEMORY : ℕ := 25
def THREAT_DECAY : ℕ := 26
def RESOURCE_SELECTIVITY : ℕ := 27
def MIGRATION_DRIVE : ℕ := 28

/-- `express_speed` (0.5 to 20.0). -/
noncomputable def express_speed (g : Genome) : ℝ :=
  express_with_weights g
    [(SPEED, 1.4), (SPEED_FAST_TWITCH, 0.9), (SPEED_ENDURANCE, 0.6),
     (METABOLISM_RATE, 0.3), (STRUCTURAL_DENSITY, -0.6)] 0.1 0.5 20.0

/-- `express_size` (0.3 to 3.0). -/
noncomputable def express_size (g : Genome) : ℝ :=
  express_with_weights g
    [(SIZE, 1.2), (STRUCTURAL_DENSITY, 0.8), (DEVELOPMENTAL_PLASTICITY, 0.4),
     (METABOLISM_RATE, -0.4)] 0.0 0.3 3.0

/-- `express_metabolism_rate` (0.003 to 0.03). -/
noncomputable def express_metabolism_rate (g : Genome) : ℝ :=
  express_with_weights g
    [(METABOLISM_RATE, 1.1), (METABOLIC_FLEXIBILITY, 0.7), (SPEED_ENDURANCE, 0.4),
     (STRUCTURAL_DENSITY, -0.3)] 0.0 0.003 0.03

/-- `express_movement_cost` (0.008 to 0.12). -/
noncomputable def express_movement_cost (g : Genome) : ℝ :=
  express_with_weights g
    [(MOVEMENT_COST, 1.0), (SIZE, 0.6), (STRUCTURAL_DENSITY, 0.5),
     (METABOLIC_FLEXIBILITY, -0.5)] 0.2 0.008 0.12

/-- `express_max_energy` (40.0 to 220.0). -/
noncomputable def express_max_energy (g : Genome) : ℝ :=
  express_with_weights g
    [(MAX_ENERGY, 1.2), (SIZE, 0.7), (METABOLISM_RATE, -0.5),
     (THERMAL_TOLERANCE, 0.3)] 0.0 40.0 220.0

/-- `express_reproduction_cooldown` (350 to 2400). -/
noncomputable def express_reproduction_cooldown (g : Genome) : ℝ :=
  express_with_weights g
    [(REPRODUCTION_COOLDOWN, 1.0), (REPRODUCTIVE_INVESTMENT, 0.9),
     (METABOLISM_RATE, -0.4), (DEVELOPMENTAL_PLASTICITY, 0.5)] 0.0 350.0 2400.0

/-- `express_reproduction_threshold` (0.45 to 0.95). -/
noncomputable def express_reproduction_threshold (g : Genome) : ℝ :=
  express_with_weights g
    [(REPRODUCTION_THRESHOLD, 1.0), (REPRODUCTIVE_INVESTMENT, 0.8),
     (MAX_ENERGY, 0.3), (METABOLIC_FLEXIBILITY, -0.5)] 0.2 0.45 0.95

/-- `express_sensory_range` (6.0 to 65.0). -/
noncomputable def express_sensory_range (g : Genome) : ℝ :=
  express_with_weights g
    [(SENSORY_RANGE, 1.0), (SENSORY_FOCUS, 0.8), (SOCIAL_SENSITIVITY, 0.6),
     (THERMAL_TOLERANCE, -0.3)] 0.1 6.0 65.0

/-- `express_aggression` (0.0 to 1.0). -/
noncomputable def express_aggression (g : Genome) : ℝ :=
  express_with_weights g
    [(AGGRESSION, 1.0), (SPEED_FAST_TWITCH, 0.4), (SENSORY_FOCUS, 0.2),
     (SOCIAL_SENSITIVITY, -0.6)] 0.0 0.0 1.0

/-- `express_boldness` (0.0 to 1.0). -/
noncomputable def express_boldness (g : Genome) : ℝ :=
  express_with_weights g
    [(BOLDNESS, 1.0), (REPRODUCTIVE_INVESTMENT, 0.5), (THERMAL_TOLERANCE, 0.3),
     (SOCIAL_SENSITIVITY, -0.4)] 0.0 0.0 1.0

/-- `express_mutation_rate` (0.002 to 0.06). -/
noncomputable def express_mutation_rate (g : Genome) : ℝ :=
  express_with_weights g
    [(MUTATION_CONTROL, 1.2), (DEVELOPMENTAL_PLASTICITY, 0.6),
     (METABOLIC_FLEXIBILITY, 0.3)] (-0.2) 0.002 0.06

/-- `express_foraging_drive` (0.0 to 1.0). -/
noncomputable def express_foraging_drive (g : Genome) : ℝ :=
  express_with_weights g
    [(FORAGING_BIAS, 1.1), (METABOLISM_RATE, 0.4), (RESOURCE_SELECTIVITY, -0.3)]
    0.0 0.0 1.0

/-- `express_risk_tolerance` (0.05 to 0.95). -/
noncomputable def express_risk_tolerance (g : Genome) : ℝ :=
  express_with_weights g
    [(RISK_TOLERANCE, 1.0), (BOLDNESS, 0.7), (AGGRESSION, 0.3)] 0.0 0.05 0.95

/-- `express_exploration_drive` (0.0 to 1.0). -/
noncomputable def express_exploration_drive (g : Genome) : ℝ :=
  express_with_weights g
    [(EXPLORATION_DRIVE, 1.0), (SENSORY_RANGE, 0.4), (MIGRATION_DRIVE, 0.5)]
    (-0.2) 0.0 1.0

/-- `express_clutch_size` (1.0 to 6.0). -/
noncomputable def express_clutch_size (g : Genome) : ℝ :=
  express_with_weights g
    [(CLUTCH_SIZE, 1.0), (REPRODUCTIVE_INVESTMENT, -0.4), (SIZE, -0.2)]
    0.3 1.0 6.0

/-- `express_offspring_energy_share` (0.05 to 0.45). -/
noncomputable def express_offspring_energy_share (g : Genome) : ℝ :=
  express_with_weights g
    [(OFFSPRING_ENERGY_SHARE, 1.0), (REPRODUCTIVE_INVESTMENT, 0.7),
     (METABOLISM_RATE, -0.4)] 0.0 0.05 0.45

/-- `express_hunger_memory_rate` (0.5 to 3.0). -/
noncomputable def express_hunger_memory_rate (g : Genome) : ℝ :=
  express_with_weights g
    [(HUNGER_MEMORY, 1.0), (FORAGING_BIAS, 0.4), (METABOLIC_FLEXIBILITY, 0.3)]
    0.0 0.5 3.0

/-- `express_threat_decay_rate` (0.2 to 2.5). -/
noncomputable def express_threat_decay_rate (g : Genome) : ℝ :=
  express_with_weights g
    [(THREAT_DECAY, 1.0), (RISK_TOLERANCE, -0.6), (SOCIAL_SENSITIVITY, -0.3)]
    0.2 0.2 2.5

/-- `express_resource_selectivity` (0.0 to 1.0). -/
noncomputable def express_resource_selectivity (g : Genome) : ℝ :=
  express_with_weights g
    [(RESOURCE_SELECTIVITY, 1.0), (FORAGING_BIAS, -0.5), (SENSORY_FOCUS, 0.4)]
    0.0 0.0 1.0

lemma sigmoid_pos (x : ℝ) : 0 < sigmoid x := by
  unfold sigmoid
  positivity

lemma sigmoid_lt_one (x : ℝ) : sigmoid x < 1 := by
  unfold sigmoid
  rw [div_lt_one (by positivity)]
  nlinarith [Real.exp_pos (-x)]

/-- The expression primitive always lands in the declared range. -/
lemma express_with_weights_mem (g : Genome) (ws : List (ℕ × ℝ)) (b lo hi : ℝ)
    (h : lo ≤ hi) :
    lo ≤ express_with_weights g ws b lo hi ∧ express_with_weights g ws b lo hi ≤ hi := by
  unfold express_with_weights
  dsimp only
  have h0 := sigmoid_pos (clampf (ws.foldl
    (fun s iw => s + gene_to_signed (g.get_gene iw.1) * iw.2) b) (-6) 6)
  have h1 := sigmoid_lt_one (clampf (ws.foldl
    (fun s iw => s + gene_to_signed (g.get_gene iw.1) * iw.2) b) (-6) 6)
  constructor <;> nlinarith

/-- C9: for every genome, every named trait expression (built from the
weighted gene sum clamped to [-6,6], the logistic sigmoid, and the linear
remap) lies within that trait's declared [min,max] range. -/
theorem c9_trait_expression_in_declared_range (g : Genome) :
    (0.5 ≤ express_speed g ∧ express_speed g ≤ 20.0) ∧
    (0.3 ≤ express_size g ∧ express_size g ≤ 3.0) ∧
    (0.003 ≤ express_metabolism_rate g ∧ express_metabolism_rate g ≤ 0.03) ∧
    (0.008 ≤ express_movement_cost g ∧ express_movement_cost g ≤ 0.12) ∧
    (40.0 ≤ express_max_energy g ∧ express_max_energy g ≤ 220.0) ∧
    (350.0 ≤ express_reproduction_cooldown g ∧ express_reproduction_cooldown g ≤ 2400.0) ∧
    (0.45 ≤ express_reproduction_threshold g ∧ express_reproduction_threshold g ≤ 0.95) ∧
    (6.0 ≤ express_sensory_range g ∧ express_sensory_range g ≤ 65.0) ∧
    (0.0 ≤ express_aggression g ∧ express_aggression g ≤ 1.0) ∧
    (0.0 ≤ express_boldness g ∧ express_boldness g ≤ 1.0) ∧
    (0.002 ≤ express_mutation_rate g ∧ express_mutation_rate g ≤ 0.06) ∧
    (0.0 ≤ express_foraging_drive g ∧ express_foraging_drive g ≤ 1.0) ∧
    (0.05 ≤ express_risk_tolerance g ∧ express_risk_tolerance g ≤ 0.95) ∧
    (0.0 ≤ express_exploration_drive g ∧ express_exploration_drive g ≤ 1.0) ∧
    (1.0 ≤ express_clutch_size g ∧ express_clutch_size g ≤ 6.0) ∧
    (0.05 ≤ express_offspring_energy_share g ∧ express_offspring_energy_share g ≤ 0.45) ∧
    (0.5 ≤ express_hunger_memory_rate g ∧ express_hunger_memory_rate g ≤ 3.0) ∧
    (0.2 ≤ express_threat_decay_rate g ∧ express_threat_decay_rate g ≤ 2.5) ∧
    (0.0 ≤ express_resource_selectivity g ∧ express_resource_selectivity g ≤ 1.0) := by
  refine ⟨?_, ?_, ?_, ?_, ?_, ?_, ?_, ?_, ?_, ?_, ?_, ?_, ?_, ?_, ?_, ?_, ?_, ?_, ?_⟩ <;>
    first
      | exact express_with_weights_mem g _ _ _ _ (by norm_num)

/-! ## Core component types (`src/organisms/components.rs`, `src/world/cell.rs`) -/

/-- Organism entities are identified by an index (bevy `Entity`). -/
abbrev Entity : Type := ℕ

/-- `OrganismType`. -/
inductive OrganismType where
  | Producer
  | Consumer
  | Decomposer
deriving DecidableEq

/-- `ResourceType` (with its `as usize` discriminant given by `ResourceType.idx`). -/
inductive ResourceType where
  | Plant
  | Mineral
  | Sunlight
  | Water
  | Detritus
  | Prey
deriving DecidableEq

/-- `ResourceType as usize`: index into the 6-entry resource arrays. -/
def ResourceType.idx : ResourceType → Fin 6
  | .Plant => 0
  | .Mineral => 1
  | .Sunlight => 2
  | .Water => 3
  | .Detritus => 4
  | .Prey => 5

/-- `Energy` component. -/
structure Energy where
  current : ℝ
  max : ℝ

/-- `Energy::ratio`. -/
noncomputable def Energy.ratio (e : Energy) : ℝ :=
  if e.max > 0 then e.current / e.max else 0

/-- `Energy::is_dead`. -/
def Energy.is_dead (e : Energy) : Prop := e.current ≤ 0

/-- `CachedTraits`: trait values derived once from a genome. -/
structure CachedTraits where
  speed : ℝ
  size : ℝ
  metabolism_rate : ℝ
  movement_cost : ℝ
  max_energy : ℝ
  reproduction_cooldown : ℝ
  reproduction_threshold : ℝ
  sensory_range : ℝ
  aggression : ℝ
  boldness : ℝ
  mutation_rate : ℝ
  foraging_drive : ℝ
  risk_tolerance : ℝ
  exploration_drive : ℝ
  clutch_size : ℝ
  offspring_energy_share : ℝ
  hunger_memory_rate : ℝ
  threat_decay_rate : ℝ
  resource_selectivity : ℝ

/-- `CachedTraits::from_genome`. -/
noncomputable def CachedTraits.from_genome (g : Genome) : CachedTraits where
  speed := express_speed g
  size := express_size g
  metabolism_rate := express_metabolism_rate g
  movement_cost := express_movement_cost g
  max_energy := express_max_energy g
  reproduction_cooldown := express_reproduction_cooldown g
  reproduction_threshold := express_reproduction_threshold g
  sensory_range := express_sensory_range g
  aggression := express_aggression g
  boldness := express_boldness g
  mutation_rate := express_mutation_rate g
  foraging_drive := express_foraging_drive g
  risk_tolerance := express_risk_tolerance g
  exploration_drive := express_exploration_drive g
  clutch_size := express_clutch_size g
  offspring_energy_share := express_offspring_energy_share g
  hunger_memory_rate := express_hunger_memory_rate g
  threat_decay_rate := express_threat_decay_rate g
  resource_selectivity := express_resource_selectivity g

/-! ## BehaviorEngine (`src/organisms/behavior.rs`) -/

/-- `BehaviorState`: the 7-state behavior machine. -/
inductive BehaviorState where
  | Wandering
  | Chasing
  | Eating
  | Fleeing
  | Mating
  | Resting
  | Migrating
deriving DecidableEq

/-- One element of `SensoryData::nearby_organisms`:
`(entity, position, distance, is_predator, is_prey, is_mate)`. -/
structure OrgEntry where
  entity : Entity
  pos : Vec2
  distance : ℝ
  is_predator : Bool
  is_prey : Bool
  is_mate : Bool

/-- One element of `SensoryData::nearby_resources`:
`(position, resource_type, distance, value)`. -/
structure ResEntry where
  pos : Vec2
  rtype : ResourceType
  distance : ℝ
  value : ℝ

/-- `SensoryData`. -/
structure SensoryData where
  nearby_organisms : List OrgEntry
  nearby_resources : List ResEntry
  current_cell_resources : ResourceType → ℝ
  nearest_predator : Option (Entity × Vec2 × ℝ)
  richest_resource : Option ResEntry

/-- `SensoryData::new`. -/
def SensoryData.new : SensoryData where
  nearby_organisms := []
  nearby_resources := []
  current_cell_resources := fun _ => 0
  nearest_predator := none
  richest_resource := none

/-- `BehaviorDecision`. -/
structure BehaviorDecision where
  state : BehaviorState
  target_entity : Option Entity
  target_position : Option Vec2
  migration_target : Option Vec2

/-- Rust `Iterator::min_by` on the distance field over organism entries:
keeps the first entry among equally minimal ones. -/
noncomputable def min_by_distance (l : List OrgEntry) : Option OrgEntry :=
  l.foldl
    (fun acc e =>
      match acc with
      | none => some e
      | some b => if e.distance < b.distance then some e else some b)
    none

/-- Preferred resource list used by `find_best_food_source_weighted`. -/
def preferred_resources (t : OrganismType) : List ResourceType :=
  match t with
  | .Producer => [.Sunlight, .Water, .Mineral]
  | .Consumer => [.Prey, .Plant]
  | .Decomposer => [.Detritus]

open Classical in
/-- One iteration of `find_best_food_source_weighted`'s loop: skip entries
outside the preferred list or with value at most 0.2, otherwise keep the
strictly better score (`score = value·(1+selectivity) −
distance·(0.1+(1−selectivity)·0.05)`). -/
noncomputable def food_score_step (organism_type : OrganismType) (selectivity : ℝ)
    (best : Option (Vec2 × ℝ)) (e : ResEntry) : Option (Vec2 × ℝ) :=
  if e.rtype ∉ preferred_resources organism_type then best
  else if e.value ≤ 0.2 then best
  else
    let score := e.value * (1 + selectivity) - e.distance * (0.1 + (1 - selectivity) * 0.05)
    match best with
    | some pb => if score ≤ pb.2 then some pb else some (e.pos, score)
    | none => some (e.pos, score)

/-- `find_best_food_source_weighted`: position of the best-scoring preferred
resource with value above 0.2. -/
noncomputable def find_best_food_source_weighted (organism_type : OrganismType)
    (sensory : SensoryData) (selectivity : ℝ) : Option Vec2 :=
  (sensory.nearby_resources.foldl (food_score_step organism_type selectivity)
    (none : Option (Vec2 × ℝ))).map Prod.fst

/-- Preferred resource list used by `is_at_food_source` (differs from the
chasing list: Producers drop Sunlight's Mineral slot, Consumers list Plant first). -/
def at_source_resources (t : OrganismType) : List ResourceType :=
  match t with
  | .Producer => [.Sunlight, .Water]
  | .Consumer => [.Plant, .Prey]
  | .Decomposer => [.Detritus]

/-- `is_at_food_source`: some preferred resource in the current cell exceeds 0.2. -/
def is_at_food_source (organism_type : OrganismType) (sensory : SensoryData) : Prop :=
  ∃ r ∈ at_source_resources organism_type, sensory.current_cell_resources r > 0.2

open Classical in
/-- `decide_behavior_with_memory`: the priority-ordered behavior decision
(flee, feed, hunt, mate, rest, migrate, wander).  The fallthrough targets of
the source's early returns are expressed as let-bound continuations. -/
noncomputable def decide_behavior_with_memory (energy : Energy)
    (cached_traits : CachedTraits) (organism_type : OrganismType)
    (sensory : SensoryData) (current_state : BehaviorState) (state_time : ℝ)
    (hunger_memory : ℝ) (threat_timer : ℝ) (recent_threat : Option Vec2)
    (has_migration_target : Bool) : BehaviorDecision :=
  let aggression := cached_traits.aggression
  let boldness := cached_traits.boldness
  let risk_tolerance := cached_traits.risk_tolerance
  let wander : BehaviorDecision := ⟨.Wandering, none, none, none⟩
  let migrateDecision : BehaviorDecision :=
    if has_migration_target = false ∧ cached_traits.exploration_drive > 0.4 ∧
        sensory.nearby_resources = [] then
      match sensory.richest_resource with
      | some e => ⟨.Migrating, none, none, some e.pos⟩
      | none => wander
    else wander
  let restDecision : BehaviorDecision :=
    if energy.ratio < 0.15 then ⟨.Resting, none, none, none⟩ else migrateDecision
  let mateDecision : BehaviorDecision :=
    if energy.ratio ≥ cached_traits.reproduction_threshold then
      match min_by_distance (sensory.nearby_organisms.filter (fun e => e.is_mate)) with
      | some e =>
          if e.distance < 15 then ⟨.Mating, some e.entity, some e.pos, none⟩
          else restDecision
      | none => restDecision
    else restDecision
  let huntDecision : BehaviorDecision :=
    if organism_type = .Consumer ∧ energy.ratio > 0.4 ∧ aggression > 0.5 then
      match min_by_distance (sensory.nearby_organisms.filter (fun e => e.is_prey)) with
      | some e =>
          if e.distance < 5 then ⟨.Eating, some e.entity, some e.pos, none⟩
          else if e.distance < 30 then ⟨.Chasing, some e.entity, some e.pos, none⟩
          else mateDecision
      | none => mateDecision
    else mateDecision
  let hunger_pressure := max (1 - energy.ratio) 0 * 0.7 + hunger_memory * 0.3
  let hunger_barrier := clampf (0.3 - cached_traits.foraging_drive * 0.15) 0.1 0.5
  let feedDecision : BehaviorDecision :=
    if hunger_pressure > hunger_barrier then
      match find_best_food_source_weighted organism_type sensory
          cached_traits.resource_selectivity with
      | some best_food =>
          if current_state = .Eating ∧ state_time < 2 then
            ⟨.Eating, none, some best_food, none⟩
          else ⟨.Chasing, none, some best_food, none⟩
      | none =>
          if is_at_food_source organism_type sensory then ⟨.Eating, none, none, none⟩
          else huntDecision
    else huntDecision
  match sensory.nearest_predator with
  | some (entity, pred_pos, distance) =>
      let flee_threshold := 8 + boldness * 14 + risk_tolerance * 6
      let memory_bonus := if threat_timer > 0 then (5 : ℝ) else 0
      if distance < flee_threshold + memory_bonus then
        ⟨.Fleeing, some entity, some pred_pos, none⟩
      else feedDecision
  | none =>
      if threat_timer > 0 then
        match recent_threat with
        | some threat_pos => ⟨.Fleeing, none, some threat_pos, none⟩
        | none => feedDecision
      else feedDecision

/-- C6: with a predator inside the flee threshold
`8 + 14·boldness + 6·risk_tolerance` (+5 while a threat memory is active),
the decision is Fleeing and never Mating, even when the organism is
reproduction-eligible (energy ratio at or above its reproduction threshold
with a valid mate in range). -/
theorem c6_fleeing_preempts_mating
    (energy : Energy) (traits : CachedTraits) (otype : OrganismType)
    (sensory : SensoryData) (cs : BehaviorState) (st hm tt : ℝ)
    (rt : Option Vec2) (hmt : Bool) (pe : Entity) (pp : Vec2) (pd : ℝ)
    (hpred : sensory.nearest_predator = some (pe, pp, pd))
    (hdist : pd < 8 + traits.boldness * 14 + traits.risk_tolerance * 6 +
      (if tt > 0 then (5 : ℝ) else 0))
    (helig : traits.reproduction_threshold ≤ energy.ratio)
    (hmate : ∃ e ∈ sensory.nearby_organisms, e.is_mate = true ∧ e.distance < 15) :
    (decide_behavior_with_memory energy traits otype sensory cs st hm tt rt hmt).state =
      BehaviorState.Fleeing ∧
    (decide_behavior_with_memory energy traits otype sensory cs st hm tt rt hmt).state ≠
      BehaviorState.Mating := by
  have hdec : decide_behavior_with_memory energy traits otype sensory cs st hm tt rt hmt =
      ⟨.Fleeing, some pe, some pp, none⟩ := by
    unfold decide_behavior_with_memory
    dsimp only
    rw [hpred]
    dsimp only
    rw [if_pos hdist]
  rw [hdec]
  exact ⟨rfl, by simp⟩

/-- Cached traits of the C6 witness organism: boldness 0.5, risk tolerance
0.5, reproduction threshold 0.5. -/
def c6_traits : CachedTraits :=
  ⟨1, 1, 0.01, 0.01, 100, 500, 0.5, 20, 0, 0.5, 0.01, 0, 0.5, 0, 3, 0.2, 1, 1, 0⟩

/-- Energy of the C6 witness organism (full). -/
def c6_energy : Energy := ⟨100, 100⟩

/-- Sensory data of the C6 witness organism: a predator at distance 2 and a
valid mate at distance 3. -/
def c6_sensory : SensoryData where
  nearby_organisms := [⟨4, (1, 1), 3, false, false, true⟩]
  nearby_resources := []
  current_cell_resources := fun _ => 0
  nearest_predator := some (9, (1, 0), 2)
  richest_resource := none

/-- C6 witness: fleeing preempts mating at a concrete reproduction-eligible
input with a predator at distance 2. -/
theorem c6_fleeing_preempts_mating_witness :
    (decide_behavior_with_memory c6_energy c6_traits .Consumer c6_sensory
      .Wandering 0 0 0 none false).state = BehaviorState.Fleeing ∧
    (decide_behavior_with_memory c6_energy c6_traits .Consumer c6_sensory
      .Wandering 0 0 0 none false).state ≠ BehaviorState.Mating :=
  c6_fleeing_preempts_mating c6_energy c6_traits .Consumer c6_sensory .Wandering
    0 0 0 none false 9 ((1 : ℝ), (0 : ℝ)) 2 rfl (by norm_num [c6_traits])
    (by norm_num [c6_energy, c6_traits, Energy.ratio])
    ⟨⟨4, (1, 1), 3, false, false, true⟩, by simp [c6_sensory], rfl, by norm_num⟩

/-- Cached traits of the C1 counterexample organism: exploration drive 0.5,
everything else neutral. -/
def c1_traits : CachedTraits :=
  ⟨1, 1, 0.01, 0.01, 100, 500, 0.5, 20, 0, 0, 0.01, 0, 0, 0.5, 3, 0.2, 1, 1, 0⟩

/-- Energy of the C1 counterexample organism (full). -/
def c1_energy : Energy := ⟨100, 100⟩

/-- C1 counterexample: an organism with no migration target, exploration
drive 0.5 > 0.4 and no resources visible nearby (hence, as
`collect_sensory_data` forces in that case, no richest-resource reading),
does NOT migrate: the decision is Wandering with no migration target set. -/
theorem c1_counterexample :
    c1_traits.exploration_drive > 0.4 ∧
    SensoryData.new.nearby_resources = [] ∧
    (decide_behavior_with_memory c1_energy c1_traits .Producer SensoryData.new
      .Wandering 0 0 0 none false).state = BehaviorState.Wandering ∧
    (decide_behavior_with_memory c1_energy c1_traits .Producer SensoryData.new
      .Wandering 0 0 0 none false).state ≠ BehaviorState.Migrating ∧
    (decide_behavior_with_memory c1_energy c1_traits .Producer SensoryData.new
      .Wandering 0 0 0 none false).migration_target = none := by
  have hdec : decide_behavior_with_memory c1_energy c1_traits .Producer SensoryData.new
      .Wandering 0 0 0 none false = ⟨.Wandering, none, none, none⟩ := by
    unfold decide_behavior_with_memory SensoryData.new
    dsimp only
    rw [if_neg (by norm_num)]
    rw [if_neg (by norm_num [c1_energy, Energy.ratio, clampf])]
    dsimp only [List.filter_nil, min_by_distance, List.foldl_nil]
    rw [ite_self, ite_self]
    rw [if_neg (by norm_num [c1_energy, Energy.ratio])]
    rw [if_pos ⟨rfl, by norm_num [c1_traits], rfl⟩]
  rw [hdec]
  exact ⟨by norm_num [c1_traits], rfl, rfl, by simp, rfl⟩

/-- C1 amended: when no higher-priority rule fires (no visible predator, no
active threat memory, hunger pressure within the barrier, no neighbor
candidates, energy ratio not below 0.15) and the organism has no migration
target, exploration drive above 0.4, an empty nearby-resource list AND a
recorded richest resource, the decision sets the migration target to the
richest resource position and returns Migrating. -/
theorem c1_migrate_rule
    (energy : Energy) (traits : CachedTraits) (otype : OrganismType)
    (sensory : SensoryData) (cs : BehaviorState) (st hm tt : ℝ)
    (rt : Option Vec2) (r : ResEntry)
    (hpred : sensory.nearest_predator = none)
    (htt : ¬ tt > 0)
    (hhung : ¬ (max (1 - energy.ratio) 0 * 0.7 + hm * 0.3 >
      clampf (0.3 - traits.foraging_drive * 0.15) 0.1 0.5))
    (horg : sensory.nearby_organisms = [])
    (hrest : ¬ energy.ratio < 0.15)
    (hexp : traits.exploration_drive > 0.4)
    (hres : sensory.nearby_resources = [])
    (hrich : sensory.richest_resource = some r) :
    decide_behavior_with_memory energy traits otype sensory cs st hm tt rt false =
      ⟨BehaviorState.Migrating, none, none, some r.pos⟩ := by
  unfold decide_behavior_with_memory
  dsimp only
  rw [hpred]
  dsimp only
  rw [if_neg htt]
  rw [if_neg hhung]
  rw [horg]
  dsimp only [List.filter_nil, min_by_distance, List.foldl_nil]
  rw [ite_self, ite_self]
  rw [if_neg hrest]
  rw [if_pos ⟨rfl, hexp, hres⟩]
  rw [hrich]

/-- Sensory data of the C1 witness organism: nothing nearby, but a recorded
richest resource at (5,5). -/
def c1_witness_sensory : SensoryData where
  nearby_organisms := []
  nearby_resources := []
  current_cell_resources := fun _ => 0
  nearest_predator := none
  richest_resource := some ⟨(5, 5), .Plant, 3, 0.9⟩

/-- C1 witness: the amended Migrate rule at a concrete input. -/
theorem c1_migrate_rule_witness :
    decide_behavior_with_memory c1_energy c1_traits .Producer c1_witness_sensory
      .Wandering 0 0 0 none false =
      ⟨BehaviorState.Migrating, none, none, some ((5 : ℝ), (5 : ℝ))⟩ :=
  c1_migrate_rule c1_energy c1_traits .Producer c1_witness_sensory .Wandering 0 0 0
    none ⟨(5, 5), .Plant, 3, 0.9⟩ rfl (by norm_num)
    (by norm_num [c1_energy, Energy.ratio, clampf, c1_traits]) rfl
    (by norm_num [c1_energy, Energy.ratio]) (by norm_num [c1_traits]) rfl rfl

/-! ## SpeciationTracker (`src/organisms/speciation.rs`) -/

/-- The per-species body of `SpeciesTracker::update_centroids`: build an
accumulator genome via `Genome::new` from a vector of 0.5 values of the
first member's gene count, add every member's raw genes index-wise (the
source adds `genome.genes[i]` for `i` below both lengths, which the
`getD _ 0` default reproduces), then divide by the member count and clamp
each gene to [0,1]. -/
noncomputable def update_centroid (genomes : List Genome) : Genome :=
  match genomes with
  | [] => []
  | g0 :: _ =>
    let init : Genome := Genome.new (List.replicate g0.length 0.5)
    let acc := genomes.foldl (fun avg g => avg.mapIdx (fun i a => a + g.getD i 0)) init
    acc.map (fun a => clampf (a / (genomes.length : ℝ)) 0 1)

/-- The spec's centroid ("element-wise mean of all member genomes, clamped
per-gene to [0,1]"), stated from the spec's words for comparison. -/
noncomputable def mean_centroid_spec (genomes : List Genome) (i : ℕ) : ℝ :=
  clampf ((genomes.map (fun g => g.getD i 0)).sum / (genomes.length : ℝ)) 0 1

/-- The all-zero genome (32 genes, all 0.0). -/
def zero_genome : Genome := List.replicate 32 (0 : ℝ)

lemma zero_genome_getD (i : ℕ) : zero_genome.getD i 0 = 0 := by
  unfold zero_genome
  rcases lt_or_le i 32 with hi | hi
  · rw [List.getD_eq_getElem _ _ (by simpa using hi)]
    simp only [List.getElem_replicate]
  · rw [List.getD_eq_default _ _ (by simpa using hi)]

lemma clampf_half : clampf 0.5 0 1 = (0.5 : ℝ) := by
  rw [clampf]
  norm_num [min_def, max_def]

/-- C2 (code bug): for a species whose single living member has the all-zero
genome, the recomputed centroid is 0.5 in every gene — the accumulator is
initialized at 0.5 per gene by `Genome::new`, so the result is
`clamp((0.5 + Σ genes)/n)`, not the element-wise mean (which is 0 here). -/
theorem c2_centroid_not_mean :
    update_centroid [zero_genome] = List.replicate 32 (0.5 : ℝ) ∧
    (∀ i, i < 32 → mean_centroid_spec [zero_genome] i = 0) ∧
    (0.5 : ℝ) ≠ 0 := by
  refine ⟨?_, ?_, by norm_num⟩
  · show (((Genome.new (List.replicate zero_genome.length 0.5)).mapIdx
        (fun i a => a + zero_genome.getD i 0)).map
          (fun a => clampf (a / ((1 : ℕ) : ℝ)) 0 1)) = List.replicate 32 (0.5 : ℝ)
    have hnew : Genome.new (List.replicate zero_genome.length 0.5) =
        List.replicate 32 (0.5 : ℝ) := by
      unfold Genome.new
      rw [show zero_genome.length = 32 from by simp [zero_genome]]
      rw [show GENOME_SIZE = 32 from rfl, List.take_replicate, List.map_replicate]
      rw [clampf_half]
      norm_num
      rw [List.append_nil]
    rw [hnew]
    apply List.ext_getElem
    · simp
    · intro i h1 h2
      simp only [List.getElem_map, List.getElem_mapIdx, List.getElem_replicate]
      rw [zero_genome_getD i]
      rw [show ((1 : ℕ) : ℝ) = 1 from by norm_num]
      rw [show (0.5 : ℝ) + 0 = 0.5 from by norm_num, div_one, clampf_half]
  · intro i hi
    unfold mean_centroid_spec
    rw [show ([zero_genome].map (fun g => g.getD i 0)).sum = zero_genome.getD i 0
      from by simp]
    rw [zero_genome_getD i]
    rw [clampf]
    norm_num [min_def, max_def]

/-! ## Reproduction (`src/organisms/systems.rs`, `handle_reproduction`) -/

/-- Explicit uniform random source driving one offspring genome:
per-gene parent pick (`rng.bool()`), mutation roll (`rng.f32()`) and
mutation noise (`rng.f32()`). -/
structure RngStream where
  pick : ℕ → Bool
  mutp : ℕ → ℝ
  mutv : ℕ → ℝ

/-- `Genome::crossover`: per gene pick uniformly from parent a or b, then
mutate with probability `mutation_rate` by uniform noise in [-0.1, 0.1]. -/
noncomputable def Genome.crossover (a b : Genome) (mutation_rate : ℝ)
    (rng : RngStream) : Genome :=
  (List.range GENOME_SIZE).map (fun i =>
    let gene_a := a.get_gene i
    let gene_b := b.get_gene i
    let g := if rng.pick i then gene_a else gene_b
    if rng.mutp i < mutation_rate then clampf (g + (rng.mutv i - 0.5) * 0.2) 0 1
    else g)

/-- `Genome::clone_with_mutation`: per stored gene, mutate with probability
`mutation_rate` by uniform noise in [-0.1, 0.1]. -/
noncomputable def Genome.clone_with_mutation (g : Genome) (mutation_rate : ℝ)
    (rng : RngStream) : Genome :=
  g.mapIdx (fun i gene =>
    if rng.mutp i < mutation_rate then clampf (gene + (rng.mutv i - 0.5) * 0.2) 0 1
    else gene)

/-- One result row of the reproduction mate query (`organism_query.get` on a
`query_radius` hit): entity, position, genome, species id and the candidate's
cached mutation-rate trait. -/
structure MateCandidate where
  entity : Entity
  pos : Vec2
  genome : Genome
  species : ℕ
  mutation_rate : ℝ

open Classical in
/-- The mate-search loop of `handle_reproduction`: walk the spatial query's
results in order and take the FIRST hit that is not the parent, has the same
species id, and lies within sensory range (the source `break`s there). -/
noncomputable def find_mate (self : Entity) (position : Vec2) (species_id : ℕ)
    (sensory_range : ℝ) : List MateCandidate → Option (Genome × ℝ)
  | [] => none
  | c :: rest =>
      if c.entity = self then find_mate self position species_id sensory_range rest
      else if c.species ≠ species_id then
        find_mate self position species_id sensory_range rest
      else if vlen (vsub position c.pos) ≤ sensory_range then
        some (c.genome, clampf c.mutation_rate 0.001 0.08)
      else find_mate self position species_id sensory_range rest

/-- The crossover rate used for a clutch: average of the two (clamped)
parental mutation rates, clamped to [0.001, 0.08]. -/
def crossover_rate (parent_rate mate_rate : ℝ) : ℝ :=
  clampf ((parent_rate + mate_rate) * 0.5) 0.001 0.08

/-- The offspring-genome loop of `handle_reproduction`: with a mate, every
offspring is a crossover of the two parents at `crossover_rate`; without one,
every offspring is an asexual mutation of the sole parent. -/
noncomputable def offspring_genomes (parent : Genome) (parent_rate : ℝ)
    (mate_data : Option (Genome × ℝ)) (clutch : ℕ)
    (rngs : ℕ → RngStream) : List Genome :=
  match mate_data with
  | some (mg, mr) =>
      (List.range clutch).map
        (fun k => Genome.crossover parent mg (crossover_rate parent_rate mr) (rngs k))
  | none =>
      (List.range clutch).map
        (fun k => parent.clone_with_mutation parent_rate (rngs k))

/-- The all-one genome. -/
def one_genome : Genome := List.replicate 32 (1 : ℝ)

/-- C3 mate query result used in the counterexample: the farther
same-species neighbor (entity 2 at distance 10) comes first in iteration
order, the nearer one (entity 3 at distance 2) second. -/
def c3_query : List MateCandidate :=
  [⟨2, (10, 0), one_genome, 7, 0.05⟩, ⟨3, (2, 0), zero_genome, 7, 0.05⟩]

lemma vlen_sub_axis (x : ℝ) : vlen (vsub (0, 0) (x, 0)) = |x| := by
  rw [show vsub ((0 : ℝ), (0 : ℝ)) (x, 0) = (-x, 0) from by
    unfold vsub
    norm_num]
  rw [vlen_axis, abs_neg]

lemma one_genome_ne_zero_genome : one_genome ≠ zero_genome := by
  intro h
  have h0 := congrArg (fun l => l.getD 0 0) h
  rw [show (fun l => List.getD l 0 0) one_genome = 1 from by
      unfold one_genome
      simp [List.getD]] at h0
  rw [show (fun l => List.getD l 0 0) zero_genome = 0 from by
      unfold zero_genome
      simp [List.getD]] at h0
  norm_num at h0

lemma find_mate_c3_query_eval :
    find_mate 1 ((0 : ℝ), (0 : ℝ)) 7 20 c3_query = some (one_genome, 0.05) := by
  unfold c3_query find_mate
  rw [if_neg (by norm_num), if_neg (by simp)]
  rw [if_pos (by rw [vlen_sub_axis]; norm_num)]
  rw [show clampf 0.05 0.001 0.08 = (0.05 : ℝ) from by
    rw [clampf]
    norm_num [min_def, max_def]]

/-- C3 counterexample: the mate picked is the FIRST same-species neighbor in
the spatial query's iteration order, not the nearest — here the query lists
entity 2 (distance 10) before entity 3 (distance 2); both qualify, and the
loop returns entity 2's genome. -/
theorem c3_counterexample :
    find_mate 1 ((0 : ℝ), (0 : ℝ)) 7 20 c3_query = some (one_genome, 0.05) ∧
    vlen (vsub ((0 : ℝ), (0 : ℝ)) ((2 : ℝ), (0 : ℝ))) ≤ 20 ∧
    vlen (vsub ((0 : ℝ), (0 : ℝ)) ((2 : ℝ), (0 : ℝ))) <
      vlen (vsub ((0 : ℝ), (0 : ℝ)) ((10 : ℝ), (0 : ℝ))) ∧
    one_genome ≠ zero_genome := by
  refine ⟨find_mate_c3_query_eval, ?_, ?_, one_genome_ne_zero_genome⟩
  · rw [vlen_sub_axis]
    norm_num
  · rw [vlen_sub_axis, vlen_sub_axis]
    norm_num

/-- The mate-acceptance predicate of the reproduction loop. -/
def mate_ok (self : Entity) (position : Vec2) (species_id : ℕ)
    (sensory_range : ℝ) (c : MateCandidate) : Prop :=
  c.entity ≠ self ∧ c.species = species_id ∧ vlen (vsub position c.pos) ≤ sensory_range

/-- C3 amended: when `find_mate` succeeds, the mate used is the first
candidate in the spatial query's iteration order satisfying the acceptance
predicate (same species, not self, within sensory range) — not necessarily
the nearest — and every offspring of the clutch is a crossover of the two
parents at the averaged clamped mutation rate of both. -/
theorem c3_first_match_and_crossover
    (self : Entity) (position : Vec2) (species_id : ℕ) (sensory_range : ℝ)
    (qs : List MateCandidate) (mg : Genome) (mr : ℝ) (parent : Genome)
    (parent_rate : ℝ) (clutch : ℕ) (rngs : ℕ → RngStream)
    (h : find_mate self position species_id sensory_range qs = some (mg, mr)) :
    (∃ pre c suf, qs = pre ++ c :: suf ∧
      mate_ok self position species_id sensory_range c ∧
      mg = c.genome ∧ mr = clampf c.mutation_rate 0.001 0.08 ∧
      ∀ c2 ∈ pre, ¬ mate_ok self position species_id sensory_range c2) ∧
    ∀ g ∈ offspring_genomes parent parent_rate (some (mg, mr)) clutch rngs,
      ∃ k, k < clutch ∧
        g = Genome.crossover parent mg (crossover_rate parent_rate mr) (rngs k) := by
  constructor
  · induction qs with
    | nil => simp [find_mate] at h
    | cons c rest ih =>
        unfold find_mate at h
        by_cases h1 : c.entity = self
        · rw [if_pos h1] at h
          obtain ⟨pre, c0, suf, heq, hok, hmg, hmr, hpre⟩ := ih h
          refine ⟨c :: pre, c0, suf, by rw [heq, List.cons_append], hok, hmg, hmr, ?_⟩
          intro c2 hc2
          rcases List.mem_cons.mp hc2 with hc2 | hc2
          · subst hc2
            intro hok2
            exact hok2.1 h1
          · exact hpre c2 hc2
        · rw [if_neg h1] at h
          by_cases h2 : c.species ≠ species_id
          · rw [if_pos h2] at h
            obtain ⟨pre, c0, suf, heq, hok, hmg, hmr, hpre⟩ := ih h
            refine ⟨c :: pre, c0, suf, by rw [heq, List.cons_append], hok, hmg, hmr, ?_⟩
            intro c2 hc2
            rcases List.mem_cons.mp hc2 with hc2 | hc2
            · subst hc2
              intro hok2
              exact h2 hok2.2.1
            · exact hpre c2 hc2
          · rw [if_neg h2] at h
            by_cases h3 : vlen (vsub position c.pos) ≤ sensory_range
            · rw [if_pos h3] at h
              have h4 : c.species = species_id := not_not.mp h2
              have hinj := Option.some.inj h
              refine ⟨[], c, rest, rfl, ⟨h1, h4, h3⟩,
                (congrArg Prod.fst hinj).symm, (congrArg Prod.snd hinj).symm,
                fun c2 hc2 => absurd hc2 (List.not_mem_nil c2)⟩
            · rw [if_neg h3] at h
              obtain ⟨pre, c0, suf, heq, hok, hmg, hmr, hpre⟩ := ih h
              refine ⟨c :: pre, c0, suf, by rw [heq, List.cons_append], hok, hmg, hmr, ?_⟩
              intro c2 hc2
              rcases List.mem_cons.mp hc2 with hc2 | hc2
              · subst hc2
                intro hok2
                exact h3 hok2.2.2
              · exact hpre c2 hc2
  · intro g hg
    unfold offspring_genomes at hg
    obtain ⟨k, hk, hgk⟩ := List.mem_map.mp hg
    exact ⟨k, List.mem_range.mp hk, hgk.symm⟩

/-- A fixed random stream for the C3 witness clutch. -/
noncomputable def c3_rng : ℕ → RngStream := fun _ =>
  ⟨fun _ => true, fun _ => 1, fun _ => 0.5⟩

/-- C3 witness: the amended statement at the concrete query of the
counterexample scenario. -/
theorem c3_first_match_and_crossover_witness :
    (∃ pre c suf, c3_query = pre ++ c :: suf ∧
      mate_ok 1 ((0 : ℝ), (0 : ℝ)) 7 20 c ∧
      one_genome = c.genome ∧ (0.05 : ℝ) = clampf c.mutation_rate 0.001 0.08 ∧
      ∀ c2 ∈ pre, ¬ mate_ok 1 ((0 : ℝ), (0 : ℝ)) 7 20 c2) ∧
    ∀ g ∈ offspring_genomes zero_genome 0.03 (some (one_genome, 0.05)) 2 c3_rng,
      ∃ k, k < 2 ∧
        g = Genome.crossover zero_genome one_genome (crossover_rate 0.03 0.05)
          (c3_rng k) :=
  c3_first_match_and_crossover 1 ((0 : ℝ), (0 : ℝ)) 7 20 c3_query one_genome 0.05
    zero_genome 0.03 2 c3_rng find_mate_c3_query_eval

/-! ## WorldGrid cells and resources (`src/world/cell.rs`, `src/world/resources.rs`) -/

/-- `TerrainType`. -/
inductive TerrainType where
  | Ocean
  | Plains
  | Forest
  | Desert
  | Tundra
  | Mountain
  | Swamp
  | Volcanic
deriving DecidableEq

/-- `Cell`: per-cell climate, terrain and the three 6-entry resource arrays,
here indexed directly by `ResourceType` (the source indexes `[f32; 6]` by the
type's `as usize` discriminant). -/
structure Cell where
  temperature : ℝ
  humidity : ℝ
  elevation : ℕ
  terrain : TerrainType
  resource_density : ResourceType → ℝ
  resource_pressure : ResourceType → ℝ
  resource_adaptation : ResourceType → ℝ

/-- `Cell::default`. -/
def Cell.default : Cell :=
  ⟨0.5, 0.5, 0, .Plains, fun _ => 0, fun _ => 0, fun _ => 0⟩

/-- `Cell::get_resource`. -/
def Cell.get_resource (c : Cell) (resource_type : ResourceType) : ℝ :=
  c.resource_density resource_type

/-- `Cell::set_resource`: stores `value.max(0.0)` (no upper cap). -/
def Cell.set_resource (c : Cell) (resource_type : ResourceType) (value : ℝ) : Cell :=
  { c with resource_density :=
      Function.update c.resource_density resource_type (max value 0) }

/-- `Cell::add_resource`: stores `(old + amount).max(0.0)` (no upper cap). -/
def Cell.add_resource (c : Cell) (resource_type : ResourceType) (amount : ℝ) : Cell :=
  { c with resource_density :=
      (Function.update c.resource_density resource_type
        (max (c.resource_density resource_type + amount) 0)) }

/-- `Cell::add_pressure`: stores `(old + amount).min(10.0)`. -/
def Cell.add_pressure (c : Cell) (resource_type : ResourceType) (amount : ℝ) : Cell :=
  { c with resource_pressure :=
      (Function.update c.resource_pressure resource_type
        (min (c.resource_pressure resource_type + amount) 10)) }

/-- `REGENERATION_RATES` per terrain and resource
([Plant, Mineral, Sunlight, Water, Detritus, Prey] row order). -/
def REGENERATION_RATES (terrain : TerrainType) (r : ResourceType) : ℝ :=
  match terrain, r with
  | .Ocean, .Plant => 0.0
  | .Ocean, .Mineral => 0.1
  | .Ocean, .Sunlight => 0.3
  | .Ocean, .Water => 1.0
  | .Ocean, .Detritus => 0.2
  | .Ocean, .Prey => 0.5
  | .Plains, .Plant => 0.3
  | .Plains, .Mineral => 0.1
  | .Plains, .Sunlight => 0.8
  | .Plains, .Water => 0.4
  | .Plains, .Detritus => 0.2
  | .Plains, .Prey => 0.3
  | .Forest, .Plant => 0.8
  | .Forest, .Mineral => 0.05
  | .Forest, .Sunlight => 0.5
  | .Forest, .Water => 0.6
  | .Forest, .Detritus => 0.4
  | .Forest, .Prey => 0.2
  | .Desert, .Plant => 0.05
  | .Desert, .Mineral => 0.2
  | .Desert, .Sunlight => 1.0
  | .Desert, .Water => 0.1
  | .Desert, .Detritus => 0.05
  | .Desert, .Prey => 0.1
  | .Tundra, .Plant => 0.1
  | .Tundra, .Mineral => 0.1
  | .Tundra, .Sunlight => 0.6
  | .Tundra, .Water => 0.3
  | .Tundra, .Detritus => 0.1
  | .Tundra, .Prey => 0.1
  | .Mountain, .Plant => 0.05
  | .Mountain, .Mineral => 0.5
  | .Mountain, .Sunlight => 0.7
  | .Mountain, .Water => 0.2
  | .Mountain, .Detritus => 0.05
  | .Mountain, .Prey => 0.05
  | .Swamp, .Plant => 0.4
  | .Swamp, .Mineral => 0.05
  | .Swamp, .Sunlight => 0.4
  | .Swamp, .Water => 1.0
  | .Swamp, .Detritus => 0.6
  | .Swamp, .Prey => 0.3
  | .Volcanic, .Plant => 0.0
  | .Volcanic, .Mineral => 0.8
  | .Volcanic, .Sunlight => 0.9
  | .Volcanic, .Water => 0.1
  | .Volcanic, .Detritus => 0.1
  | .Volcanic, .Prey => 0.0

/-- `DECAY_RATES` per resource. -/
def DECAY_RATES (r : ResourceType) : ℝ :=
  match r with
  | .Plant => 0.01
  | .Mineral => 0.0
  | .Sunlight => 0.1
  | .Water => 0.02
  | .Detritus => 0.05
  | .Prey => 0.03

/-- `MAX_RESOURCE_DENSITY`. -/
def MAX_RESOURCE_DENSITY : ℝ := 1.0

/-- `temperature_regeneration_multiplier`: peaks at temperature 0.5,
linearly 0 by deviation 0.5. -/
def temperature_regeneration_multiplier (temperature : ℝ) : ℝ :=
  1 - min (|temperature - 0.5| * 2) 1

/-- `humidity_regeneration_multiplier` per resource. -/
def humidity_regeneration_multiplier (humidity : ℝ) (resource_type : ResourceType) : ℝ :=
  match resource_type with
  | .Plant => 0.5 + humidity * 0.5
  | .Water => humidity
  | .Sunlight => 1.0
  | .Mineral => 1.0
  | .Detritus => 0.5 + humidity * 0.5
  | .Prey => 0.3 + humidity * 0.7

/-- `regenerate_resources`: each resource regenerates at
`terrain_rate × temp_mult × humidity_mult × dt`, capped at 1.0. -/
def regenerate_resources (cell : Cell) (dt : ℝ) : Cell :=
  { cell with resource_density := (fun r =>
      let temp_mult := temperature_regeneration_multiplier cell.temperature
      let humidity_mult := humidity_regeneration_multiplier cell.humidity r
      let effective_rate := REGENERATION_RATES cell.terrain r * temp_mult * humidity_mult
      min (cell.resource_density r + effective_rate * dt) MAX_RESOURCE_DENSITY) }

open Classical in
/-- `decay_resources`: multiplicative decay, floored at 0; resources whose
decay rate is 0 (Mineral) are left untouched. -/
noncomputable def decay_resources (cell : Cell) (dt : ℝ) : Cell :=
  { cell with resource_density := (fun r =>
      if DECAY_RATES r > 0 then max (cell.resource_density r * (1 - DECAY_RATES r * dt)) 0
      else cell.resource_density r) }

open Classical in
/-- `quantize_resources`: densities below `threshold` snap to 0. -/
noncomputable def quantize_resources (cell : Cell) (threshold : ℝ) : Cell :=
  { cell with resource_density := (fun r =>
      if cell.resource_density r < threshold then 0 else cell.resource_density r) }

/-- `CHUNK_SIZE`. -/
def CHUNK_SIZE : ℕ := 64

/-- A chunk's cells, addressed by local (x, y). -/
def Chunk : Type := Fin CHUNK_SIZE → Fin CHUNK_SIZE → Cell

/-- The (dx, dy) neighbor offsets visited by `flow_resources`' inner loops. -/
def neighbor_offsets : List (ℤ × ℤ) :=
  [(-1, -1), (0, -1), (1, -1), (-1, 0), (1, 0), (-1, 1), (0, 1), (1, 1)]

/-- The diffusion rate of `flow_resources`. -/
def diffusion_rate : ℝ := 0.1

open Classical in
/-- `flow_resources` on one chunk: every cell moves toward the average of
its in-bounds 8-neighborhood (read from the pre-pass snapshot, which the
immutable `chunk` argument provides) by `diffusion_rate·dt`, clamped to
[0,1]; cells with no in-bounds neighbor are untouched. -/
noncomputable def flow_chunk (chunk : Chunk) (dt : ℝ) : Chunk := fun x y =>
  let neighbors := neighbor_offsets.filterMap (fun d =>
    let nx := (x : ℤ) + d.1
    let ny := (y : ℤ) + d.2
    if h : 0 ≤ nx ∧ nx < CHUNK_SIZE ∧ 0 ≤ ny ∧ ny < CHUNK_SIZE then
      some (chunk ⟨nx.toNat, by omega⟩ ⟨ny.toNat, by omega⟩)
    else none)
  let neighbor_count := neighbors.length
  let cell := chunk x y
  if neighbor_count > 0 then
    { cell with resource_density := (fun r =>
        let old_value := cell.resource_density r
        let neighbor_avg :=
          (neighbors.map (fun c => c.resource_density r)).sum / (neighbor_count : ℝ)
        let diff := neighbor_avg - old_value
        clampf (old_value + diff * diffusion_rate * dt) 0 1) }
  else cell

/-- One pass of the world resource loop: per-cell regeneration, decay or
quantization, or a whole-chunk diffusion step. -/
inductive WorldOp where
  | regen (dt : ℝ)
  | decay (dt : ℝ)
  | quantize (threshold : ℝ)
  | diffuse (dt : ℝ)

/-- Apply one pass to a chunk. -/
noncomputable def apply_op (op : WorldOp) (chunk : Chunk) : Chunk :=
  match op with
  | .regen dt => fun x y => regenerate_resources (chunk x y) dt
  | .decay dt => fun x y => decay_resources (chunk x y) dt
  | .quantize threshold => fun x y => quantize_resources (chunk x y) threshold
  | .diffuse dt => flow_chunk chunk dt

/-- Apply a sequence of passes to a chunk. -/
noncomputable def apply_ops (ops : List WorldOp) (chunk : Chunk) : Chunk :=
  ops.foldl (fun c op => apply_op op c) chunk

/-- A pass's time step is nonnegative. -/
def op_dt_nonneg : WorldOp → Prop
  | .regen dt => 0 ≤ dt
  | .decay dt => 0 ≤ dt
  | .quantize _ => True
  | .diffuse dt => 0 ≤ dt

/-- All resource densities of a chunk lie in [0,1]. -/
def densities_in_range (chunk : Chunk) : Prop :=
  ∀ x y r, 0 ≤ (chunk x y).resource_density r ∧ (chunk x y).resource_density r ≤ 1

/-- All cell humidities of a chunk are nonnegative. -/
def humidity_nonneg (chunk : Chunk) : Prop :=
  ∀ x y, 0 ≤ (chunk x y).humidity

lemma temperature_regeneration_multiplier_nonneg (t : ℝ) :
    0 ≤ temperature_regeneration_multiplier t := by
  unfold temperature_regeneration_multiplier
  have := min_le_right (|t - 0.5| * 2) 1
  linarith

lemma humidity_regeneration_multiplier_nonneg (h : ℝ) (r : ResourceType)
    (hh : 0 ≤ h) : 0 ≤ humidity_regeneration_multiplier h r := by
  cases r <;> (unfold humidity_regeneration_multiplier; dsimp only; linarith)

lemma REGENERATION_RATES_nonneg (t : TerrainType) (r : ResourceType) :
    0 ≤ REGENERATION_RATES t r := by
  cases t <;> cases r <;> norm_num [REGENERATION_RATES]

lemma DECAY_RATES_nonneg (r : ResourceType) : 0 ≤ DECAY_RATES r := by
  cases r <;> norm_num [DECAY_RATES]

lemma regenerate_resources_range (cell : Cell) (dt : ℝ) (hdt : 0 ≤ dt)
    (hh : 0 ≤ cell.humidity) (r : ResourceType)
    (h0 : 0 ≤ cell.resource_density r) (h1 : cell.resource_density r ≤ 1) :
    0 ≤ (regenerate_resources cell dt).resource_density r ∧
    (regenerate_resources cell dt).resource_density r ≤ 1 := by
  unfold regenerate_resources MAX_RESOURCE_DENSITY
  dsimp only
  have hrate : 0 ≤ REGENERATION_RATES cell.terrain r *
      temperature_regeneration_multiplier cell.temperature *
      humidity_regeneration_multiplier cell.humidity r :=
    mul_nonneg (mul_nonneg (REGENERATION_RATES_nonneg _ _)
      (temperature_regeneration_multiplier_nonneg _))
      (humidity_regeneration_multiplier_nonneg _ _ hh)
  constructor
  · exact le_min (by nlinarith) (by norm_num)
  · exact min_le_of_right_le (by norm_num)

lemma decay_resources_range (cell : Cell) (dt : ℝ) (hdt : 0 ≤ dt)
    (r : ResourceType)
    (h0 : 0 ≤ cell.resource_density r) (h1 : cell.resource_density r ≤ 1) :
    0 ≤ (decay_resources cell dt).resource_density r ∧
    (decay_resources cell dt).resource_density r ≤ 1 := by
  unfold decay_resources
  dsimp only
  by_cases hc : DECAY_RATES r > 0
  · rw [if_pos hc]
    refine ⟨le_max_right _ _, max_le ?_ (by norm_num)⟩
    nlinarith [mul_nonneg (mul_nonneg h0 (le_of_lt hc)) hdt]
  · rw [if_neg hc]
    exact ⟨h0, h1⟩

lemma quantize_resources_range (cell : Cell) (threshold : ℝ) (r : ResourceType)
    (h0 : 0 ≤ cell.resource_density r) (h1 : cell.resource_density r ≤ 1) :
    0 ≤ (quantize_resources cell threshold).resource_density r ∧
    (quantize_resources cell threshold).resource_density r ≤ 1 := by
  unfold quantize_resources
  dsimp only
  by_cases hc : cell.resource_density r < threshold
  · rw [if_pos hc]
    norm_num
  · rw [if_neg hc]
    exact ⟨h0, h1⟩

lemma flow_chunk_range (chunk : Chunk) (dt : ℝ) (hd : densities_in_range chunk)
    (x y : Fin CHUNK_SIZE) (r : ResourceType) :
    0 ≤ (flow_chunk chunk dt x y).resource_density r ∧
    (flow_chunk chunk dt x y).resource_density r ≤ 1 := by
  unfold flow_chunk
  dsimp only
  by_cases hc : (neighbor_offsets.filterMap (fun d =>
      if h : 0 ≤ (x : ℤ) + d.1 ∧ (x : ℤ) + d.1 < CHUNK_SIZE ∧
          0 ≤ (y : ℤ) + d.2 ∧ (y : ℤ) + d.2 < CHUNK_SIZE then
        some (chunk ⟨((x : ℤ) + d.1).toNat, by omega⟩ ⟨((y : ℤ) + d.2).toNat, by omega⟩)
      else none)).length > 0
  · rw [if_pos hc]
    exact ⟨clampf_nonneg _ _ (by norm_num), clampf_le _ _ _⟩
  · rw [if_neg hc]
    exact hd x y r

lemma apply_op_humidity (op : WorldOp) (chunk : Chunk) (x y : Fin CHUNK_SIZE) :
    (apply_op op chunk x y).humidity = (chunk x y).humidity := by
  cases op with
  | regen dt => rfl
  | decay dt => rfl
  | quantize threshold => rfl
  | diffuse dt =>
      show (flow_chunk chunk dt x y).humidity = (chunk x y).humidity
      unfold flow_chunk
      dsimp only
      split <;> rfl

lemma apply_op_range (op : WorldOp) (chunk : Chunk) (hop : op_dt_nonneg op)
    (hhum : humidity_nonneg chunk) (hd : densities_in_range chunk) :
    densities_in_range (apply_op op chunk) := by
  intro x y r
  cases op with
  | regen dt =>
      exact regenerate_resources_range (chunk x y) dt hop (hhum x y) r
        (hd x y r).1 (hd x y r).2
  | decay dt =>
      exact decay_resources_range (chunk x y) dt hop r (hd x y r).1 (hd x y r).2
  | quantize threshold =>
      exact quantize_resources_range (chunk x y) threshold r (hd x y r).1 (hd x y r).2
  | diffuse dt => exact flow_chunk_range chunk dt hd x y r

/-- C4: resource densities of every cell stay within [0,1] after any
sequence of regenerate / decay / quantize / diffuse passes, for any
per-pass dt ≥ 0, given they start in [0,1] (and humidities are
nonnegative, as the climate update guarantees). -/
theorem c4_densities_stay_in_range (ops : List WorldOp) (chunk : Chunk)
    (hops : ∀ op ∈ ops, op_dt_nonneg op)
    (hhum : humidity_nonneg chunk)
    (hd : densities_in_range chunk) :
    densities_in_range (apply_ops ops chunk) := by
  induction ops generalizing chunk with
  | nil => exact hd
  | cons op rest ih =>
      have h1 : densities_in_range (apply_op op chunk) :=
        apply_op_range op chunk (hops op (List.mem_cons_self op rest)) hhum hd
      have h2 : humidity_nonneg (apply_op op chunk) := by
        intro x y
        rw [apply_op_humidity]
        exact hhum x y
      exact ih (apply_op op chunk)
        (fun o ho => hops o (List.mem_cons_of_mem op ho)) h2 h1

/-- The constant chunk used by the C4 witness. -/
noncomputable def c4_chunk : Chunk := fun _ _ =>
  ⟨0.5, 0.5, 0, .Plains, fun _ => 0.5, fun _ => 0, fun _ => 0⟩

/-- C4 witness: the invariant at a concrete pass sequence over a concrete
chunk. -/
theorem c4_densities_stay_in_range_witness :
    densities_in_range (apply_ops
      [.regen 1, .decay 1, .diffuse 0.5, .quantize 0.001] c4_chunk) :=
  c4_densities_stay_in_range [.regen 1, .decay 1, .diffuse 0.5, .quantize 0.001]
    c4_chunk
    (by intro op hop
        fin_cases hop <;> norm_num [op_dt_nonneg])
    (fun x y => by norm_num [c4_chunk])
    (fun x y r => by norm_num [c4_chunk])

/-- C7 counterexample: `set_resource` does not preserve the [0,1] bound —
writing 2.0 into a default cell stores density 2.0. -/
theorem c7_counterexample :
    ((Cell.default).set_resource .Plant 2).get_resource .Plant = 2 ∧
    ¬ ((Cell.default).set_resource .Plant 2).get_resource .Plant ≤ 1 := by
  have h : ((Cell.default).set_resource .Plant 2).get_resource .Plant = 2 := by
    unfold Cell.default Cell.set_resource Cell.get_resource
    dsimp only
    rw [Function.update_same]
    norm_num
  exact ⟨h, by rw [h]; norm_num⟩

/-- C7 amended: `set_resource` and `add_resource` clamp the written density
below at 0 and leave the other resources unchanged; they enforce the upper
bound 1 only when the written value (resp. the sum old+amount) is at most 1 —
for larger inputs the stored density exceeds 1. -/
theorem c7_cell_api_bounds (c : Cell) (t : ResourceType) (v amt : ℝ)
    (hv : v ≤ 1) (hamt : c.get_resource t + amt ≤ 1) :
    (0 ≤ (c.set_resource t v).get_resource t ∧
      (c.set_resource t v).get_resource t ≤ 1) ∧
    (0 ≤ (c.add_resource t amt).get_resource t ∧
      (c.add_resource t amt).get_resource t ≤ 1) ∧
    (∀ u, u ≠ t → (c.set_resource t v).get_resource u = c.get_resource u ∧
      (c.add_resource t amt).get_resource u = c.get_resource u) := by
  unfold Cell.set_resource Cell.add_resource Cell.get_resource
  dsimp only
  refine ⟨⟨?_, ?_⟩, ⟨?_, ?_⟩, ?_⟩
  · rw [Function.update_same]
    exact le_max_right _ _
  · rw [Function.update_same]
    exact max_le hv (by norm_num)
  · rw [Function.update_same]
    exact le_max_right _ _
  · rw [Function.update_same]
    exact max_le hamt (by norm_num)
  · intro u hu
    constructor <;> rw [Function.update_noteq hu]

/-- C7 witness: the amended cell API bounds at a concrete cell and values. -/
theorem c7_cell_api_bounds_witness :
    (0 ≤ ((Cell.default).set_resource .Plant 0.7).get_resource .Plant ∧
      ((Cell.default).set_resource .Plant 0.7).get_resource .Plant ≤ 1) ∧
    (0 ≤ ((Cell.default).add_resource .Plant 0.3).get_resource .Plant ∧
      ((Cell.default).add_resource .Plant 0.3).get_resource .Plant ≤ 1) ∧
    (∀ u, u ≠ ResourceType.Plant →
      ((Cell.default).set_resource .Plant 0.7).get_resource u =
        (Cell.default).get_resource u ∧
      ((Cell.default).add_resource .Plant 0.3).get_resource u =
        (Cell.default).get_resource u) :=
  c7_cell_api_bounds Cell.default .Plant 0.7 0.3 (by norm_num)
    (by norm_num [Cell.default, Cell.get_resource])

/-! ## Climate events (`src/world/climate.rs`) -/

/-- `ClimateEvent`. -/
structure ClimateEvent where
  center : Vec2
  radius : ℝ
  temperature_delta : ℝ
  humidity_delta : ℝ
  time_remaining : ℝ

/-- `ClimateState` (the fields; randomness-driven updates are external). -/
structure ClimateState where
  base_temperature : ℝ
  base_humidity : ℝ
  season : ℝ
  time : ℕ
  noise_phase : ℝ
  event_cooldown : ℝ
  events : List ClimateEvent
  regional_seed : ℕ

open Classical in
/-- `ClimateState::event_offsets`: sum, over all active events containing
the position, of the event deltas scaled by `1 − (distance/radius)^1.5`. -/
noncomputable def event_offsets (s : ClimateState) (world_pos : Vec2) : ℝ × ℝ :=
  s.events.foldl
    (fun acc event =>
      let distance := vdist world_pos event.center
      if distance ≤ event.radius then
        let influence := 1 - (distance / event.radius) ^ (1.5 : ℝ)
        (acc.1 + event.temperature_delta * influence,
         acc.2 + event.humidity_delta * influence)
      else acc)
    (0, 0)

open Classical in
/-- The spec's version of the event contribution, with a factor that "falls
off linearly with distance" — stated from the spec's words for comparison. -/
noncomputable def event_offsets_linear_spec (s : ClimateState) (world_pos : Vec2) : ℝ × ℝ :=
  s.events.foldl
    (fun acc event =>
      let distance := vdist world_pos event.center
      if distance ≤ event.radius then
        let influence := 1 - distance / event.radius
        (acc.1 + event.temperature_delta * influence,
         acc.2 + event.humidity_delta * influence)
      else acc)
    (0, 0)

/-- The C8 event: centered at the origin with radius 100, temperature delta
1, humidity delta 0. -/
def c8_event : ClimateEvent := ⟨(0, 0), 100, 1, 0, 50⟩

/-- The C8 counterexample climate state: `c8_event` is the only active event. -/
def c8_state : ClimateState :=
  ⟨0.5, 0.5, 0, 0, 0, 120, [c8_event], 0⟩

lemma vdist_axis_to_origin (x : ℝ) (hx : 0 ≤ x) : vdist (x, 0) ((0 : ℝ), (0 : ℝ)) = x := by
  rw [show vdist (x, 0) ((0 : ℝ), (0 : ℝ)) = vlen (x - 0, 0 - 0) from rfl]
  rw [show ((x - 0 : ℝ), (0 - 0 : ℝ)) = ((x : ℝ), (0 : ℝ)) from by norm_num]
  rw [vlen_axis, abs_of_nonneg hx]

lemma quarter_rpow_three_halves : ((1 / 4 : ℝ)) ^ ((1.5 : ℝ)) = 1 / 8 := by
  rw [show (1.5 : ℝ) = ((3 : ℝ) / 2) from by norm_num]
  rw [show ((1 / 4 : ℝ)) = ((1 / 2 : ℝ)) ^ ((2 : ℕ) : ℝ) from by
    rw [Real.rpow_natCast]
    norm_num]
  rw [← Real.rpow_mul (by norm_num : (0 : ℝ) ≤ 1 / 2)]
  rw [show ((2 : ℕ) : ℝ) * (3 / 2) = ((3 : ℕ) : ℝ) from by norm_num]
  rw [Real.rpow_natCast]
  norm_num

/-- C8 counterexample: at distance 25 from a radius-100 event, the code's
falloff factor is `1 − (1/4)^1.5 = 7/8`, while a linear falloff gives `3/4`
— the event contribution does not fall off linearly. -/
theorem c8_counterexample :
    event_offsets c8_state ((25 : ℝ), (0 : ℝ)) = ((7 / 8 : ℝ), (0 : ℝ)) ∧
    event_offsets_linear_spec c8_state ((25 : ℝ), (0 : ℝ)) = ((3 / 4 : ℝ), (0 : ℝ)) ∧
    event_offsets c8_state ((25 : ℝ), (0 : ℝ)) ≠
      event_offsets_linear_spec c8_state ((25 : ℝ), (0 : ℝ)) := by
  have hda : vdist ((25 : ℝ), (0 : ℝ)) ((0 : ℝ), (0 : ℝ)) = 25 :=
    vdist_axis_to_origin 25 (by norm_num)
  have h1 : event_offsets c8_state ((25 : ℝ), (0 : ℝ)) = ((7 / 8 : ℝ), (0 : ℝ)) := by
    unfold event_offsets c8_state c8_event
    dsimp only [List.foldl_cons, List.foldl_nil]
    rw [hda]
    rw [if_pos (by norm_num)]
    rw [show ((25 : ℝ) / 100) = 1 / 4 from by norm_num]
    rw [quarter_rpow_three_halves]
    norm_num
  have h2 : event_offsets_linear_spec c8_state ((25 : ℝ), (0 : ℝ)) =
      ((3 / 4 : ℝ), (0 : ℝ)) := by
    unfold event_offsets_linear_spec c8_state c8_event
    dsimp only [List.foldl_cons, List.foldl_nil]
    rw [hda]
    rw [if_pos (by norm_num)]
    norm_num
  refine ⟨h1, h2, ?_⟩
  rw [h1, h2]
  intro h
  have := congrArg Prod.fst h
  norm_num at this

/-- C8 amended: for a single active event and any position within the
radius, each contribution equals the event delta scaled by the factor
`1 − (distance/radius)^1.5`: a power-1.5 falloff — equal to 1 at the
center and 0 at the radius and strictly decreasing in between, but not
linear in the distance. -/
theorem c8_event_power_falloff (s : ClimateState) (e : ClimateEvent)
    (pos : Vec2) (hs : s.events = [e]) (hr : 0 < e.radius)
    (hd : vdist pos e.center ≤ e.radius) :
    event_offsets s pos =
      (e.temperature_delta * (1 - (vdist pos e.center / e.radius) ^ (1.5 : ℝ)),
       e.humidity_delta * (1 - (vdist pos e.center / e.radius) ^ (1.5 : ℝ))) ∧
    1 - ((0 : ℝ) / e.radius) ^ (1.5 : ℝ) = 1 ∧
    1 - (e.radius / e.radius) ^ (1.5 : ℝ) = 0 ∧
    (∀ d1 d2 : ℝ, 0 ≤ d1 → d1 < d2 → d2 ≤ e.radius →
      1 - (d2 / e.radius) ^ (1.5 : ℝ) < 1 - (d1 / e.radius) ^ (1.5 : ℝ)) := by
  refine ⟨?_, ?_, ?_, ?_⟩
  · unfold event_offsets
    rw [hs]
    dsimp only [List.foldl_cons, List.foldl_nil]
    rw [if_pos hd]
    norm_num
  · rw [zero_div, Real.zero_rpow (by norm_num)]
    norm_num
  · rw [div_self (ne_of_gt hr), Real.one_rpow]
    norm_num
  · intro d1 d2 h1 h12 h2r
    have hlt : d1 / e.radius < d2 / e.radius := by gcongr
    have hpow : (d1 / e.radius) ^ (1.5 : ℝ) < (d2 / e.radius) ^ (1.5 : ℝ) :=
      Real.rpow_lt_rpow (div_nonneg h1 (le_of_lt hr)) hlt (by norm_num)
    linarith

/-- C8 witness: the power-1.5 falloff facts at the concrete event. -/
theorem c8_event_power_falloff_witness :
    event_offsets c8_state ((25 : ℝ), (0 : ℝ)) =
      (c8_event.temperature_delta *
        (1 - (vdist ((25 : ℝ), (0 : ℝ)) c8_event.center / c8_event.radius) ^ (1.5 : ℝ)),
       c8_event.humidity_delta *
        (1 - (vdist ((25 : ℝ), (0 : ℝ)) c8_event.center / c8_event.radius) ^ (1.5 : ℝ))) ∧
    1 - ((0 : ℝ) / c8_event.radius) ^ (1.5 : ℝ) = 1 ∧
    1 - (c8_event.radius / c8_event.radius) ^ (1.5 : ℝ) = 0 ∧
    (∀ d1 d2 : ℝ, 0 ≤ d1 → d1 < d2 → d2 ≤ c8_event.radius →
      1 - (d2 / c8_event.radius) ^ (1.5 : ℝ) < 1 - (d1 / c8_event.radius) ^ (1.5 : ℝ)) :=
  c8_event_power_falloff c8_state c8_event ((25 : ℝ), (0 : ℝ)) rfl
    (by norm_num [c8_event])
    (by rw [show c8_event.center = ((0 : ℝ), (0 : ℝ)) from rfl,
          vdist_axis_to_origin 25 (by norm_num)]
        norm_num [c8_event])

/-! ## Lifecycle energy systems (`src/organisms/systems.rs`) -/

/-- `update_metabolism`, per organism: deduct
`(base_rate·size + |velocity|·movement_cost)·dt`, floored at 0. -/
def update_metabolism_energy (base_rate movement_cost_mult size speed dt : ℝ)
    (e : Energy) : Energy :=
  let base_cost := base_rate * size * dt
  let movement_cost := speed * movement_cost_mult * dt
  let total_cost := base_cost + movement_cost
  ⟨max (e.current - total_cost) 0, e.max⟩

/-- `handle_eating`, per organism in the Eating state: consume from the
current cell at rate 5/s restricted to the type's resource set, convert at
30% efficiency (prey mass ×2, Decomposers at half efficiency), cap energy at
max, record the consumed mass as pressure. -/
noncomputable def handle_eating_step (organism_type : OrganismType) (cell : Cell)
    (dt : ℝ) (e : Energy) : Energy × Cell :=
  let consumption_rate : ℝ := 5.0
  let energy_conversion_efficiency : ℝ := 0.3
  match organism_type with
  | .Producer =>
      let sunlight := min (cell.get_resource .Sunlight) (consumption_rate * dt)
      let water := min (cell.get_resource .Water) (consumption_rate * dt * 0.5)
      let mineral := min (cell.get_resource .Mineral) (consumption_rate * dt * 0.2)
      let cell1 := cell.set_resource .Sunlight (cell.get_resource .Sunlight - sunlight)
      let cell2 := cell1.set_resource .Water (cell1.get_resource .Water - water)
      let cell3 := cell2.set_resource .Mineral (cell2.get_resource .Mineral - mineral)
      let cell4 := ((cell3.add_pressure .Sunlight sunlight).add_pressure .Water
        water).add_pressure .Mineral mineral
      let consumed := (sunlight + water + mineral) * energy_conversion_efficiency
      (⟨min (e.current + consumed) e.max, e.max⟩, cell4)
  | .Consumer =>
      let plant := min (cell.get_resource .Plant) (consumption_rate * dt)
      let prey_resource := min (cell.get_resource .Prey) (consumption_rate * dt)
      let cell1 := cell.set_resource .Plant (cell.get_resource .Plant - plant)
      let cell2 := cell1.set_resource .Prey (cell1.get_resource .Prey - prey_resource)
      let cell3 := (cell2.add_pressure .Plant plant).add_pressure .Prey prey_resource
      let consumed := (plant + prey_resource * 2.0) * energy_conversion_efficiency
      (⟨min (e.current + consumed) e.max, e.max⟩, cell3)
  | .Decomposer =>
      let detritus := min (cell.get_resource .Detritus) (consumption_rate * dt)
      let cell1 := cell.set_resource .Detritus (cell.get_resource .Detritus - detritus)
      let cell2 := cell1.add_pressure .Detritus detritus
      let consumed := detritus * energy_conversion_efficiency * 0.5
      (⟨min (e.current + consumed) e.max, e.max⟩, cell2)

/-- The parent-energy debit of `handle_reproduction`: per-child energy is
`min(share·available, available/count)` (floored at 0), and the parent pays
`per_child·count`, floored at 0.  Returns the parent's new energy and the
per-child energy. -/
noncomputable def reproduction_parent_debit (e : Energy) (energy_share count : ℝ) :
    Energy × ℝ :=
  let available_energy := max e.current 0
  let per_child_energy := max (min (available_energy * energy_share)
    (available_energy / count)) 0
  let total_energy_cost := per_child_energy * count
  (⟨max (available_energy - total_energy_cost) 0, e.max⟩, per_child_energy)

/-- The initial energy of a spawned offspring:
`(0.9·per_child).min(max_energy).max(0.15·max_energy)`. -/
def offspring_initial_energy (per_child_energy max_energy : ℝ) : ℝ :=
  max (min (per_child_energy * 0.9) max_energy) (max_energy * 0.15)

/-- A live-population record (the fields `handle_death` reads). -/
structure Organism where
  entity : Entity
  energy : Energy

open Classical in
/-- `handle_death`: every organism whose energy `is_dead` (≤ 0) is removed
from the live population. -/
noncomputable def handle_death (pop : List Organism) : List Organism :=
  pop.filter (fun o => decide (¬ o.energy.is_dead))

open Classical in
/-- C5: after each subsystem energy pass (metabolism, eating, reproduction)
the organism's energy stays in [0, max] — offspring start in [0, max] too —
and the death pass removes exactly the zero-or-below-energy organisms. -/
theorem c5_energy_bounds_and_death
    (base_rate movement_cost_mult size speed dt : ℝ) (t : OrganismType)
    (cell : Cell) (e : Energy) (energy_share count max_energy : ℝ)
    (pop : List Organism)
    (hdt : 0 ≤ dt) (hbr : 0 ≤ base_rate) (hmc : 0 ≤ movement_cost_mult)
    (hsz : 0 ≤ size) (hsp : 0 ≤ speed)
    (hcell : ∀ r, 0 ≤ cell.resource_density r)
    (he0 : 0 ≤ e.current) (hem : e.current ≤ e.max)
    (hcount : 1 ≤ count) (hme : 0 ≤ max_energy) :
    (0 ≤ (update_metabolism_energy base_rate movement_cost_mult size speed dt e).current ∧
      (update_metabolism_energy base_rate movement_cost_mult size speed dt e).current ≤
        e.max) ∧
    (0 ≤ (handle_eating_step t cell dt e).1.current ∧
      (handle_eating_step t cell dt e).1.current ≤ e.max) ∧
    (0 ≤ (reproduction_parent_debit e energy_share count).1.current ∧
      (reproduction_parent_debit e energy_share count).1.current ≤ e.max ∧
      0 ≤ offspring_initial_energy (reproduction_parent_debit e energy_share count).2
        max_energy ∧
      offspring_initial_energy (reproduction_parent_debit e energy_share count).2
        max_energy ≤ max_energy) ∧
    ((∀ o ∈ handle_death pop, ¬ o.energy.is_dead) ∧
      (∀ o : Organism, o.energy.current = 0 → o ∉ handle_death pop)) := by
  have hmax0 : 0 ≤ e.max := le_trans he0 hem
  refine ⟨?_, ?_, ?_, ?_, ?_⟩
  · unfold update_metabolism_energy
    dsimp only
    constructor
    · exact le_max_right _ _
    · refine max_le ?_ hmax0
      nlinarith [mul_nonneg (mul_nonneg hbr hsz) hdt,
        mul_nonneg (mul_nonneg hsp hmc) hdt]
  · have hcons : ∀ r : ResourceType, ∀ cap : ℝ, 0 ≤ cap →
        0 ≤ min (cell.get_resource r) cap :=
      fun r cap hcap => le_min (hcell r) hcap
    cases t <;>
      (unfold handle_eating_step
       dsimp only
       constructor
       · refine le_min ?_ hmax0
         have h1 := hcons .Sunlight (5.0 * dt) (by nlinarith)
         have h2 := hcons .Water (5.0 * dt * 0.5) (by nlinarith)
         have h3 := hcons .Mineral (5.0 * dt * 0.2) (by nlinarith)
         have h4 := hcons .Plant (5.0 * dt) (by nlinarith)
         have h5 := hcons .Prey (5.0 * dt) (by nlinarith)
         have h6 := hcons .Detritus (5.0 * dt) (by nlinarith)
         nlinarith
       · exact min_le_right _ _)
  · unfold reproduction_parent_debit offspring_initial_energy
    dsimp only
    have hpc : 0 ≤ max (min (max e.current 0 * energy_share)
        (max e.current 0 / count)) 0 := le_max_right _ _
    refine ⟨le_max_right _ _, ?_, ?_, ?_⟩
    · refine max_le ?_ hmax0
      have h1 : max e.current 0 = e.current := max_eq_left he0
      nlinarith [mul_nonneg hpc (by linarith : (0 : ℝ) ≤ count)]
    · refine le_trans (by nlinarith : (0 : ℝ) ≤ max_energy * 0.15) (le_max_right _ _)
    · exact max_le (min_le_right _ _) (by nlinarith)
  · intro o ho
    exact of_decide_eq_true (List.mem_filter.mp ho).2
  · intro o h0 hmem
    have hdead : o.energy.is_dead := le_of_eq h0
    exact of_decide_eq_true (List.mem_filter.mp hmem).2 hdead

/-- C5 witness: the energy bounds and death-pass facts at concrete inputs. -/
theorem c5_energy_bounds_and_death_witness :
    (0 ≤ (update_metabolism_energy 0.01 0.05 1 2 1 ⟨50, 100⟩).current ∧
      (update_metabolism_energy 0.01 0.05 1 2 1 ⟨50, 100⟩).current ≤
        (⟨50, 100⟩ : Energy).max) ∧
    (0 ≤ (handle_eating_step .Consumer Cell.default 1 ⟨50, 100⟩).1.current ∧
      (handle_eating_step .Consumer Cell.default 1 ⟨50, 100⟩).1.current ≤
        (⟨50, 100⟩ : Energy).max) ∧
    (0 ≤ (reproduction_parent_debit ⟨50, 100⟩ 0.2 3).1.current ∧
      (reproduction_parent_debit ⟨50, 100⟩ 0.2 3).1.current ≤
        (⟨50, 100⟩ : Energy).max ∧
      0 ≤ offspring_initial_energy (reproduction_parent_debit ⟨50, 100⟩ 0.2 3).2 80 ∧
      offspring_initial_energy (reproduction_parent_debit ⟨50, 100⟩ 0.2 3).2 80 ≤ 80) ∧
    ((∀ o ∈ handle_death [⟨1, ⟨0, 100⟩⟩], ¬ o.energy.is_dead) ∧
      (∀ o : Organism, o.energy.current = 0 → o ∉ handle_death [⟨1, ⟨0, 100⟩⟩])) :=
  c5_energy_bounds_and_death 0.01 0.05 1 2 1 .Consumer Cell.default ⟨50, 100⟩
    0.2 3 80 [⟨1, ⟨0, 100⟩⟩] (by norm_num) (by norm_num) (by norm_num)
    (by norm_num) (by norm_num) (fun r => by norm_num [Cell.default])
    (by norm_num) (by norm_num) (by norm_num) (by norm_num)

/-! ## Sensory collection (`src/organisms/behavior.rs`, `collect_sensory_data`) -/

/-- `is_predator_of` (translated literally, with the argument roles of the
source signature). -/
def is_predator_of (predator_type prey_type : OrganismType)
    (predator_size prey_size : ℝ) : Prop :=
  match predator_type, prey_type with
  | .Consumer, .Consumer => predator_size > prey_size * 1.5
  | .Consumer, .Producer => True
  | .Consumer, .Decomposer => True
  | _, _ => False

/-- `is_prey_of`. -/
def is_prey_of (predator_type prey_type : OrganismType)
    (predator_size prey_size : ℝ) : Prop :=
  is_predator_of predator_type prey_type predator_size prey_size

/-- One result row of the behavior query (`organism_query.get`): entity,
position, species, type, size and energy of a nearby organism. -/
structure OrgInfo where
  entity : Entity
  pos : Vec2
  species : ℕ
  otype : OrganismType
  size : ℝ
  energy : Energy

open Classical in
/-- The nearby-organism loop of `collect_sensory_data`: skip self, keep
in-range neighbors with predator/prey/mate flags, tracking the nearest
predator (first seen wins ties). -/
noncomputable def organism_scan (entity : Entity) (position : Vec2)
    (sensory_range : ℝ) (species_id : ℕ) (organism_type : OrganismType)
    (size : ℝ) (query_result : List OrgInfo) :
    List OrgEntry × Option (Entity × Vec2 × ℝ) :=
  query_result.foldl
    (fun st other =>
      if other.entity = entity then st
      else
        let distance := vlen (vsub position other.pos)
        if distance ≤ sensory_range then
          let is_predator :=
            decide (is_predator_of organism_type other.otype other.size size)
          let is_prey := decide (is_prey_of organism_type other.otype size other.size)
          let is_mate := decide (other.species = species_id ∧
            other.otype = organism_type ∧ ¬ other.energy.is_dead ∧
            distance ≤ sensory_range * 0.5)
          let nearest :=
            if is_predator then
              match st.2 with
              | some p =>
                  if p.2.2 ≤ distance then some p
                  else some (other.entity, other.pos, distance)
              | none => some (other.entity, other.pos, distance)
            else st.2
          (st.1 ++ [⟨other.entity, other.pos, distance, is_predator, is_prey, is_mate⟩],
            nearest)
        else st)
    ([], none)

/-- The resource types scanned by `collect_sensory_data`'s cell loop
(Sunlight and Mineral are never scanned). -/
def scan_resource_types : List ResourceType := [.Plant, .Water, .Detritus, .Prey]

open Classical in
/-- One resource-type iteration of the cell scan: record a reading above the
0.1 significance threshold and track the strictly richest one. -/
noncomputable def scan_entry_step (base : Vec2 × ℝ) (cell : Cell)
    (st : List ResEntry × Option ResEntry) (resource_type : ResourceType) :
    List ResEntry × Option ResEntry :=
  let value := cell.get_resource resource_type
  if value > 0.1 then
    let entry : ResEntry := ⟨base.1, resource_type, base.2, value⟩
    let richest :=
      match st.2 with
      | some best => if value > best.value then some entry else some best
      | none => some entry
    (st.1 ++ [entry], richest)
  else st

/-- The per-cell body of the resource scan: visit Plant, Water, Detritus and
Prey in order. -/
noncomputable def scan_cell_step (base : Vec2 × ℝ) (cell : Cell)
    (st : List ResEntry × Option ResEntry) : List ResEntry × Option ResEntry :=
  scan_resource_types.foldl (scan_entry_step base cell) st

/-- Rust's inclusive integer range `a..=b` as a list. -/
def int_range (a b : ℤ) : List ℤ :=
  if b < a then []
  else (List.range ((b - a).toNat + 1)).map (fun k => a + (k : ℤ))

open Classical in
/-- The nearby-cell resource scan of `collect_sensory_data`: visit all cell
offsets within `ceil(sensory_range)` whose center distance is within range,
reading cells through the grid lookup. -/
noncomputable def scan_resources (position : Vec2) (sensory_range : ℝ)
    (get_cell : Vec2 → Option Cell) : List ResEntry × Option ResEntry :=
  let cell_size : ℝ := 1.0
  let search_radius : ℤ := ⌈sensory_range / cell_size⌉
  (int_range (-search_radius) search_radius).foldl
    (fun st dy =>
      (int_range (-search_radius) search_radius).foldl
        (fun st dx =>
          let check_x := position.1 + (dx : ℝ) * cell_size
          let check_y := position.2 + (dy : ℝ) * cell_size
          let distance := vlen ((dx : ℝ), (dy : ℝ)) * cell_size
          if distance ≤ sensory_range then
            match get_cell (check_x, check_y) with
            | some cell => scan_cell_step ((check_x, check_y), distance) cell st
            | none => st
          else st)
        st)
    ([], none)

/-- `collect_sensory_data`: current-cell resources, the nearby-organism scan,
the nearby-cell resource scan, and the final distance sort of the resource
list. -/
noncomputable def collect_sensory_data (entity : Entity) (position : Vec2)
    (sensory_range : ℝ) (species_id : ℕ) (organism_type : OrganismType)
    (size : ℝ) (get_cell : Vec2 → Option Cell) (query_result : List OrgInfo) :
    SensoryData :=
  let current :=
    match get_cell position with
    | some cell => cell.resource_density
    | none => fun _ => 0
  let org := organism_scan entity position sensory_range species_id organism_type
    size query_result
  let res := scan_resources position sensory_range get_cell
  { nearby_organisms := org.1
    nearby_resources := res.1.mergeSort (fun a b => decide (a.distance ≤ b.distance))
    current_cell_resources := current
    nearest_predator := org.2
    richest_resource := res.2 }

/-- Folding preserves any invariant its step preserves. -/
lemma foldl_preserves {α β : Type} (P : β → Prop) (f : β → α → β)
    (hf : ∀ b a, P b → P (f b a)) :
    ∀ (l : List α) (st : β), P st → P (l.foldl f st) := by
  intro l
  induction l with
  | nil => intro st h; exact h
  | cons a l ih => intro st h; exact ih (f st a) (hf st a h)

/-- The invariant of the resource scan: every recorded entry (and the
richest, when set) has one of the four scanned resource types. -/
def scan_inv (st : List ResEntry × Option ResEntry) : Prop :=
  (∀ e ∈ st.1, e.rtype ∈ scan_resource_types) ∧
  (∀ e, st.2 = some e → e.rtype ∈ scan_resource_types)

lemma scan_entry_step_inv (base : Vec2 × ℝ) (cell : Cell)
    (st : List ResEntry × Option ResEntry) (rt : ResourceType)
    (hrt : rt ∈ scan_resource_types) (h : scan_inv st) :
    scan_inv (scan_entry_step base cell st rt) := by
  unfold scan_entry_step
  dsimp only
  by_cases hv : cell.get_resource rt > 0.1
  · rw [if_pos hv]
    constructor
    · intro e he
      rcases List.mem_append.mp he with he | he
      · exact h.1 e he
      · rw [List.mem_singleton.mp he]
        exact hrt
    · intro e he
      rcases hst : st.2 with _ | best
      · rw [hst] at he
        dsimp only at he
        rw [Option.some.inj he.symm]
        exact hrt
      · rw [hst] at he
        dsimp only at he
        by_cases hb : cell.get_resource rt > best.value
        · rw [if_pos hb] at he
          rw [Option.some.inj he.symm]
          exact hrt
        · rw [if_neg hb] at he
          rw [← Option.some.inj he]
          exact h.2 best hst
  · rw [if_neg hv]
    exact h

lemma scan_cell_step_inv (base : Vec2 × ℝ) (cell : Cell)
    (st : List ResEntry × Option ResEntry) (h : scan_inv st) :
    scan_inv (scan_cell_step base cell st) := by
  unfold scan_cell_step
  have haux : ∀ (l : List ResourceType), (∀ rt ∈ l, rt ∈ scan_resource_types) →
      ∀ st, scan_inv st → scan_inv (l.foldl (scan_entry_step base cell) st) := by
    intro l
    induction l with
    | nil => intro _ st h; exact h
    | cons rt l ih =>
        intro hl st h
        exact ih (fun r hr => hl r (List.mem_cons_of_mem rt hr))
          (scan_entry_step base cell st rt) (scan_entry_step_inv base cell st rt
            (hl rt (List.mem_cons_self rt l)) h)
  exact haux scan_resource_types (fun rt h => h) st h

lemma scan_resources_inv (position : Vec2) (sensory_range : ℝ)
    (get_cell : Vec2 → Option Cell) :
    scan_inv (scan_resources position sensory_range get_cell) := by
  unfold scan_resources
  dsimp only
  apply foldl_preserves scan_inv
  · intro st dy
    apply foldl_preserves scan_inv
    intro st dx h
    dsimp only
    by_cases hd : vlen ((dx : ℝ), (dy : ℝ)) * 1.0 ≤ sensory_range
    · rw [if_pos hd]
      rcases get_cell (position.1 + (dx : ℝ) * 1.0, position.2 + (dy : ℝ) * 1.0) with
        _ | cell
      · exact h
      · exact scan_cell_step_inv _ cell st h
    · rw [if_neg hd]
      exact h
  · exact ⟨fun e he => absurd he (List.not_mem_nil e), fun e he => by cases he⟩

lemma producer_fold_water (sel : ℝ) :
    ∀ (l : List ResEntry) (acc : Option (Vec2 × ℝ)),
      (∀ e ∈ l, e.rtype ∈ scan_resource_types) →
      ∀ pb, l.foldl (food_score_step .Producer sel) acc = some pb →
        acc = some pb ∨ ∃ e ∈ l, e.rtype = .Water ∧ pb.1 = e.pos := by
  intro l
  induction l with
  | nil =>
      intro acc _ pb h
      exact Or.inl h
  | cons e l ih =>
      intro acc hl pb hfold
      rw [List.foldl_cons] at hfold
      rcases ih (food_score_step .Producer sel acc e)
          (fun x hx => hl x (List.mem_cons_of_mem e hx)) pb hfold with hcase | hcase
      · unfold food_score_step at hcase
        by_cases h1 : e.rtype ∉ preferred_resources .Producer
        · rw [if_pos h1] at hcase
          exact Or.inl hcase
        · rw [if_neg h1] at hcase
          by_cases h2 : e.value ≤ 0.2
          · rw [if_pos h2] at hcase
            exact Or.inl hcase
          · rw [if_neg h2] at hcase
            have hwater : e.rtype = .Water := by
              have hin : e.rtype ∈ preferred_resources .Producer := not_not.mp h1
              have hscan : e.rtype ∈ scan_resource_types :=
                hl e (List.mem_cons_self e l)
              cases hre : e.rtype <;>
                simp [preferred_resources, scan_resource_types, hre] at hin hscan ⊢
            rcases hacc : acc with _ | pb0
            · rw [hacc] at hcase
              dsimp only at hcase
              exact Or.inr ⟨e, List.mem_cons_self e l, hwater,
                by rw [← Option.some.inj hcase]⟩
            · rw [hacc] at hcase
              dsimp only at hcase
              by_cases h3 : e.value * (1 + sel) -
                  e.distance * (0.1 + (1 - sel) * 0.05) ≤ pb0.2
              · rw [if_pos h3] at hcase
                exact Or.inl hcase
              · rw [if_neg h3] at hcase
                exact Or.inr ⟨e, List.mem_cons_self e l, hwater,
                  by rw [← Option.some.inj hcase]⟩
      · obtain ⟨x, hx, hw, hp⟩ := hcase
        exact Or.inr ⟨x, List.mem_cons_of_mem e hx, hw, hp⟩

lemma find_best_producer_water (s : SensoryData) (sel : ℝ)
    (hs : ∀ e ∈ s.nearby_resources, e.rtype ∈ scan_resource_types)
    (p : Vec2) (h : find_best_food_source_weighted .Producer s sel = some p) :
    ∃ e ∈ s.nearby_resources, e.rtype = .Water ∧ e.pos = p := by
  unfold find_best_food_source_weighted at h
  rcases hfold : s.nearby_resources.foldl (food_score_step .Producer sel) none with
    _ | pb
  · rw [hfold] at h
    cases h
  · rw [hfold] at h
    have hp : pb.1 = p := by simpa using h
    rcases producer_fold_water sel s.nearby_resources none hs pb hfold with
      hc | ⟨e, he, hw, hpe⟩
    · cases hc
    · refine ⟨e, he, hw, ?_⟩
      rw [← hpe]
      exact hp

/-- C10: the sensory cell scan only ever records Plant, Water, Detritus and
Prey readings (never Sunlight or Mineral) — both in `nearby_resources` and
in `richest_resource` — so a Producer's off-cell food search (whose
preferred list is Sunlight, Water, Mineral) can only ever select a Water
reading. -/
theorem c10_only_scanned_types_and_producer_water
    (entity : Entity) (position : Vec2) (sensory_range : ℝ) (species_id : ℕ)
    (organism_type : OrganismType) (size : ℝ) (get_cell : Vec2 → Option Cell)
    (query_result : List OrgInfo) (selectivity : ℝ) :
    (∀ e ∈ (collect_sensory_data entity position sensory_range species_id
        organism_type size get_cell query_result).nearby_resources,
      e.rtype ∈ scan_resource_types) ∧
    (∀ e, (collect_sensory_data entity position sensory_range species_id
        organism_type size get_cell query_result).richest_resource = some e →
      e.rtype ∈ scan_resource_types) ∧
    (∀ p, find_best_food_source_weighted .Producer
        (collect_sensory_data entity position sensory_range species_id
          organism_type size get_cell query_result) selectivity = some p →
      ∃ e ∈ (collect_sensory_data entity position sensory_range species_id
          organism_type size get_cell query_result).nearby_resources,
        e.rtype = .Water ∧ e.pos = p) := by
  have hinv := scan_resources_inv position sensory_range get_cell
  have hmem : ∀ e, e ∈ (collect_sensory_data entity position sensory_range
      species_id organism_type size get_cell query_result).nearby_resources ↔
      e ∈ (scan_resources position sensory_range get_cell).1 := by
    intro e
    unfold collect_sensory_data
    dsimp only
    exact (List.mergeSort_perm _ _).mem_iff
  refine ⟨?_, ?_, ?_⟩
  · intro e he
    exact hinv.1 e ((hmem e).mp he)
  · intro e he
    exact hinv.2 e (by
      rw [show (collect_sensory_data entity position sensory_range species_id
          organism_type size get_cell query_result).richest_resource =
        (scan_resources position sensory_range get_cell).2 from rfl] at he
      exact he)
  · intro p hp
    exact find_best_producer_water _ selectivity
      (fun e he => hinv.1 e ((hmem e).mp he)) p hp

end EvoSim
